import Mathlib

/-!
Verification of the TiktokClipGenerator pipeline.

The Python sources are shallowly embedded: stage records become Lean
structures (fields read with `.get(key, default)` in Python become
`Option` fields read with `getD`), numeric values are exact rationals,
functions that can `raise` return `Except String`, and the phase-5
renderer, which must be total over arbitrary dictionary-shaped input,
is embedded over a JSON-like value type.  Machine floats are modelled
as exact rationals; Python's `round(x, 2)` is modelled as rounding to
the 2-decimal grid with ties to even.
-/

set_option maxRecDepth 10000

/-! ## Rounding: model of Python `round(x, 2)` on exact values -/

/-- Round a rational to the nearest integer, ties to even (Python `round`). -/
def roundHalfEven (q : ℚ) : ℤ :=
  if q - ⌊q⌋ < 1/2 then ⌊q⌋
  else if 1/2 < q - ⌊q⌋ then ⌊q⌋ + 1
  else if ⌊q⌋ % 2 = 0 then ⌊q⌋ else ⌊q⌋ + 1

/-- Model of Python `round(x, 2)`: round to the 2-decimal grid, ties to even. -/
def round2 (q : ℚ) : ℚ := (roundHalfEven (q * 100) : ℚ) / 100

theorem roundHalfEven_intCast (n : ℤ) : roundHalfEven (n : ℚ) = n := by
  unfold roundHalfEven
  simp

theorem roundHalfEven_ge_floor (q : ℚ) : ⌊q⌋ ≤ roundHalfEven q := by
  unfold roundHalfEven
  split
  · omega
  · split
    · omega
    · split <;> omega

/-- Rounding twice is the same as rounding once. -/
theorem round2_round2 (q : ℚ) : round2 (round2 q) = round2 q := by
  unfold round2
  rw [show ((roundHalfEven (q * 100) : ℚ) / 100) * 100 = (roundHalfEven (q * 100) : ℚ) by
    field_simp]
  rw [roundHalfEven_intCast]

/-- Rounding to 2 decimals preserves the lower bound 1. -/
theorem one_le_round2 (q : ℚ) (h : 1 ≤ q) : 1 ≤ round2 q := by
  unfold round2
  rw [le_div_iff₀ (by norm_num)]
  have h100 : (100 : ℚ) ≤ q * 100 := by linarith
  have hfl : (100 : ℤ) ≤ ⌊q * 100⌋ := by
    rw [Int.le_floor]; exact_mod_cast h100
  have hge := roundHalfEven_ge_floor (q * 100)
  have hle : (100 : ℤ) ≤ roundHalfEven (q * 100) := le_trans hfl hge
  have hcast : ((100 : ℤ) : ℚ) ≤ (roundHalfEven (q * 100) : ℚ) := by exact_mod_cast hle
  push_cast at hcast
  linarith

/-! ## Decimal rendering: model of Python f-string formatting of ints -/

/-- Character for a single decimal digit. -/
def decDigit (n : Nat) : Char := Char.ofNat (48 + n)

/-- Decimal digit list of a natural number, most significant first. -/
def natDecChars (n : Nat) : List Char :=
  if h : n < 10 then [decDigit n]
  else natDecChars (n / 10) ++ [decDigit (n % 10)]
decreasing_by exact Nat.div_lt_self (by omega) (by omega)

/-- Decimal rendering of a natural number. -/
def natDec (n : Nat) : String := ⟨natDecChars n⟩

/-- Decimal digit list of an integer (Python `str(i)`). -/
def intDecChars (n : Int) : List Char :=
  if n < 0 then '-' :: natDecChars n.natAbs else natDecChars n.toNat

/-- Decimal rendering of an integer. -/
def intDec (n : Int) : String := ⟨intDecChars n⟩

/-- Python string interpolation of an optional integer (`None` prints as "None"). -/
def optIntChars : Option Int → List Char
  | none => ['N', 'o', 'n', 'e']
  | some n => intDecChars n

/-- String form of `optIntChars`. -/
def optIntStr (o : Option Int) : String := ⟨optIntChars o⟩

theorem decDigit_inj : ∀ a, a < 10 → ∀ b, b < 10 → decDigit a = decDigit b → a = b := by
  decide

theorem decDigit_ne : ∀ a, a < 10 →
    decDigit a ≠ '_' ∧ decDigit a ≠ 'N' ∧ decDigit a ≠ '-' := by
  decide

theorem natDecChars_ne_nil (n : Nat) : natDecChars n ≠ [] := by
  unfold natDecChars
  split <;> simp

theorem natDecChars_mem (n : Nat) : ∀ c ∈ natDecChars n, ∃ d, d < 10 ∧ c = decDigit d := by
  induction n using Nat.strong_induction_on with
  | _ n ih =>
    intro c hc
    unfold natDecChars at hc
    split at hc
    · next h =>
      simp at hc
      exact ⟨n, h, hc⟩
    · next h =>
      rcases List.mem_append.1 hc with h1 | h2
      · exact ih (n / 10) (Nat.div_lt_self (by omega) (by omega)) c h1
      · simp at h2
        exact ⟨n % 10, Nat.mod_lt _ (by omega), h2⟩

theorem natDecChars_inj : ∀ m n : Nat, natDecChars m = natDecChars n → m = n := by
  intro m
  induction m using Nat.strong_induction_on with
  | _ m ih =>
    intro n h
    unfold natDecChars at h
    by_cases hm : m < 10 <;> by_cases hn : n < 10
    · rw [dif_pos hm, dif_pos hn] at h
      simp at h
      exact decDigit_inj m hm n hn h
    · rw [dif_pos hm, dif_neg hn] at h
      exfalso
      have hlen := congrArg List.length h
      rw [List.length_append] at hlen
      simp only [List.length_singleton] at hlen
      have hpos : 0 < (natDecChars (n / 10)).length :=
        List.length_pos.2 (natDecChars_ne_nil (n / 10))
      omega
    · rw [dif_neg hm, dif_pos hn] at h
      exfalso
      have hlen := congrArg List.length h
      rw [List.length_append] at hlen
      simp only [List.length_singleton] at hlen
      have hpos : 0 < (natDecChars (m / 10)).length :=
        List.length_pos.2 (natDecChars_ne_nil (m / 10))
      omega
    · rw [dif_neg hm, dif_neg hn] at h
      have hlen : ([decDigit (m % 10)] : List Char).length = [decDigit (n % 10)].length := rfl
      obtain ⟨h1, h2⟩ := List.append_inj' h hlen
      simp at h2
      have hdiv : m / 10 = n / 10 :=
        ih (m / 10) (Nat.div_lt_self (by omega) (by omega)) (n / 10) h1
      have hmod : m % 10 = n % 10 :=
        decDigit_inj _ (Nat.mod_lt _ (by omega)) _ (Nat.mod_lt _ (by omega)) h2
      omega

theorem natDecChars_no_underscore (n : Nat) : '_' ∉ natDecChars n := by
  intro hmem
  obtain ⟨d, hd, hc⟩ := natDecChars_mem n _ hmem
  exact (decDigit_ne d hd).1 hc.symm

theorem natDecChars_head_digit (n : Nat) :
    ∃ d l, d < 10 ∧ natDecChars n = decDigit d :: l := by
  cases h : natDecChars n with
  | nil => exact absurd h (natDecChars_ne_nil n)
  | cons c l =>
    obtain ⟨d, hd, hc⟩ := natDecChars_mem n c (h ▸ List.mem_cons_self c l)
    exact ⟨d, l, hd, by rw [hc]⟩

theorem intDecChars_inj : ∀ m n : Int, intDecChars m = intDecChars n → m = n := by
  intro m n h
  unfold intDecChars at h
  by_cases hm : m < 0 <;> by_cases hn : n < 0
  · rw [if_pos hm, if_pos hn] at h
    injection h with h1 h2
    have := natDecChars_inj _ _ h2
    omega
  · rw [if_pos hm, if_neg hn] at h
    obtain ⟨d, l, hd, hh⟩ := natDecChars_head_digit n.toNat
    rw [hh] at h
    injection h with h1 _
    exact absurd h1.symm ((decDigit_ne d hd).2.2)
  · rw [if_neg hm, if_pos hn] at h
    obtain ⟨d, l, hd, hh⟩ := natDecChars_head_digit m.toNat
    rw [hh] at h
    injection h with h1 _
    exact absurd h1 ((decDigit_ne d hd).2.2)
  · rw [if_neg hm, if_neg hn] at h
    have := natDecChars_inj _ _ h
    omega

theorem intDecChars_no_underscore (n : Int) : '_' ∉ intDecChars n := by
  unfold intDecChars
  split
  · intro hmem
    rcases List.mem_cons.1 hmem with h | h
    · exact absurd h.symm (by decide)
    · exact natDecChars_no_underscore _ h
  · exact natDecChars_no_underscore _

theorem intDecChars_head_ne_N (n : Int) : ∃ c l, intDecChars n = c :: l ∧ c ≠ 'N' := by
  unfold intDecChars
  split
  · exact ⟨'-', _, rfl, by decide⟩
  · obtain ⟨d, l, hd, hh⟩ := natDecChars_head_digit n.toNat
    exact ⟨decDigit d, l, hh, (decDigit_ne d hd).2.1⟩

theorem optIntChars_inj : ∀ a b : Option Int, optIntChars a = optIntChars b → a = b := by
  intro a b h
  cases a with
  | none =>
    cases b with
    | none => rfl
    | some n =>
      exfalso
      obtain ⟨c, l, hc, hne⟩ := intDecChars_head_ne_N n
      simp only [optIntChars] at h
      rw [hc] at h
      injection h with h1 _
      exact hne h1.symm
  | some m =>
    cases b with
    | none =>
      exfalso
      obtain ⟨c, l, hc, hne⟩ := intDecChars_head_ne_N m
      simp only [optIntChars] at h
      rw [hc] at h
      injection h with h1 _
      exact hne h1
    | some n => exact congrArg some (intDecChars_inj m n h)

theorem optIntChars_no_underscore (o : Option Int) : '_' ∉ optIntChars o := by
  cases o with
  | none => decide
  | some n => exact intDecChars_no_underscore n

/-! ## Splitting concatenations at an underscore separator -/

theorem sep_split {a b c d : List Char} (ha : '_' ∉ a) (hb : '_' ∉ b)
    (h : a ++ '_' :: c = b ++ '_' :: d) : a = b ∧ c = d := by
  induction a generalizing b with
  | nil =>
    cases b with
    | nil => simpa using h
    | cons y b' =>
      exfalso
      simp at h
      exact hb (h.1 ▸ List.mem_cons_self _ _)
  | cons x a' iha =>
    cases b with
    | nil =>
      exfalso
      simp at h
      exact ha (h.1 ▸ List.mem_cons_self _ _)
    | cons y b' =>
      simp at h
      obtain ⟨hxy, htail⟩ := h
      have ha' : '_' ∉ a' := fun hm => ha (List.mem_cons_of_mem _ hm)
      have hb' : '_' ∉ b' := fun hm => hb (List.mem_cons_of_mem _ hm)
      obtain ⟨h1, h2⟩ := iha ha' hb' htail
      exact ⟨by rw [hxy, h1], h2⟩

theorem string_data_append (a b : String) : (a ++ b).data = a.data ++ b.data := by
  cases a; cases b; rfl

/-! ## Phase 1: story engine (`story_engine.py`) -/

/-- Scene record produced by `generate_story`. -/
structure Scene where
  id : Int
  purpose : String
  emotion : String
  duration : ℚ
  description : String
deriving DecidableEq

/-- Story record produced by `generate_story`. -/
structure Story where
  goal : String
  product : String
  audience : String
  platform : String
  scenes : List Scene
deriving DecidableEq

/-- Embedding of `generate_story`: rule-based template fill of a 4-scene story. -/
def generate_story (goal product audience platform : String) : Story :=
  let hook_desc :=
    if goal = "ขายคอร์สออนไลน์" then "ตั้งคำถามว่าทำไม" ++ audience ++ "ถึงยังไม่ได้เริ่มใช้" ++ product
    else if goal = "เพิ่มผู้ติดตาม" then "คุณรู้หรือไม่ว่า" ++ audience ++ "ต้องการอะไรจาก" ++ platform
    else if goal = "สร้างแบรนด์" then "ทำไม" ++ product ++ "ถึงเป็นที่นิยมในกลุ่ม" ++ audience
    else "ตั้งคำถามที่น่าสนใจเกี่ยวกับ" ++ product ++ "สำหรับ" ++ audience
  let conflict_desc :=
    if goal = "ขายคอร์สออนไลน์" then "โชว์ความยุ่งยากที่" ++ audience ++ "ต้องเจอเมื่อต้องเรียนรู้เอง"
    else if goal = "เพิ่มผู้ติดตาม" then "แสดงปัญหาในการสร้างคอนเทนต์สำหรับ" ++ platform
    else if goal = "สร้างแบรนด์" then "ความยากในการทำให้" ++ audience ++ "รู้จักและเชื่อใจ"
    else "แสดงปัญหาและความท้าทายที่" ++ audience ++ "ต้องเผชิญ"
  let reveal_desc :=
    if goal = "ขายคอร์สออนไลน์" then "แนะนำ" ++ product ++ "ที่ทำให้" ++ audience ++ "เรียนรู้ได้ง่ายและรวดเร็ว"
    else if goal = "เพิ่มผู้ติดตาม" then "เปิดเผยวิธีใช้" ++ product ++ "เพื่อสร้างคอนเทนต์ที่โดนใจบน" ++ platform
    else if goal = "สร้างแบรนด์" then "แนะนำ" ++ product ++ "ที่เป็นทางออกสำหรับ" ++ audience
    else "แนะนำ" ++ product ++ "ที่เป็นทางออกสำหรับปัญหา"
  let close_desc :=
    if goal = "ขายคอร์สออนไลน์" then "เชิญชวนให้" ++ audience ++ "สมัครเรียน" ++ product
    else if goal = "เพิ่มผู้ติดตาม" then "เชิญชวนให้ติดตามและลองใช้" ++ product ++ "บน" ++ platform
    else if goal = "สร้างแบรนด์" then "เชิญชวนให้" ++ audience ++ "ลองใช้" ++ product ++ "และติดตามผลลัพธ์"
    else "เชิญชวนให้ลองใช้" ++ product
  { goal := goal, product := product, audience := audience, platform := platform,
    scenes :=
      [ { id := 1, purpose := "hook", emotion := "curious", duration := 3, description := hook_desc },
        { id := 2, purpose := "conflict", emotion := "frustrated", duration := 5, description := conflict_desc },
        { id := 3, purpose := "reveal", emotion := "relief", duration := 5, description := reveal_desc },
        { id := 4, purpose := "close", emotion := "confident", duration := 4, description := close_desc } ] }

/-! ## Phase 3: storyboard builder (`phase3_storyboard.py`)

Scenes flowing into the storyboard builder are dictionary-shaped; fields read
with `scene.get(key)` / `scene.get(key, default)` become `Option` fields. -/

/-- Scene as read by `map_scene_to_keyframes` (a Python dict; every field optional). -/
structure SceneIn where
  id? : Option Int
  purpose? : Option String
  emotion? : Option String
  duration? : Option ℚ
  description? : Option String
deriving DecidableEq

/-- Character or location candidate dict (Phase 2 output entries). -/
structure CharLoc where
  id? : Option Int
  name? : Option String
  style? : Option String
deriving DecidableEq

/-- Keyframe record produced by `map_scene_to_keyframes`. -/
structure Keyframe where
  id : String
  timing : ℚ
  description : String
  image_path : String
  image_prompt : String
deriving DecidableEq

/-- Keyframe id string `scene_<scene_id>_kf_<n>` (the f-string in the source). -/
def keyframeId (sid : Option Int) (n : Nat) : String :=
  "scene_" ++ optIntStr sid ++ "_kf_" ++ natDec n

/-- Purpose-indexed keyframe description templates (the dict lookup with
`[description] * 3` as default). -/
def purposeDescs (purpose description : String) : List String :=
  if purpose = "hook" then
    [ "เปิดฉากด้วยคำถามที่น่าสนใจ - " ++ description,
      "แสดงความสงสัยและความอยากรู้ - " ++ description,
      "ดึงดูดความสนใจด้วยคำถามชวนคิด - " ++ description ]
  else if purpose = "conflict" then
    [ "แสดงปัญหาและความยากลำบาก - " ++ description,
      "โชว์ความยุ่งยากที่ต้องเผชิญ - " ++ description,
      "สะท้อนความท้าทายและอุปสรรค - " ++ description ]
  else if purpose = "reveal" then
    [ "แนะนำวิธีแก้ปัญหา - " ++ description,
      "เปิดเผยทางออกและแนวทาง - " ++ description,
      "แสดงผลลัพธ์และความสำเร็จ - " ++ description ]
  else if purpose = "close" then
    [ "เชิญชวนให้ดำเนินการ - " ++ description,
      "สรุปและเรียกร้องให้ลงมือทำ - " ++ description,
      "ปิดท้ายด้วยการกระตุ้นให้ลอง - " ++ description ]
  else [description, description, description]

/-- Number of keyframes for a scene duration (the duration-bucket policy). -/
def numKeyframes (duration : ℚ) : Nat :=
  if duration ≤ 3 then 1 else if duration ≤ 5 then 2 else 3

/-- Embedding of `map_scene_to_keyframes`.  A Python dict that is truthy iff
non-empty is modelled by `Option CharLoc` (`none` for absent/empty). -/
def map_scene_to_keyframes (scene : SceneIn)
    (selected_character selected_location : Option CharLoc) : List Keyframe :=
  let scene_id := scene.id?
  let purpose := scene.purpose?.getD ""
  let emotion := scene.emotion?.getD ""
  let duration := scene.duration?.getD 0
  let description := scene.description?.getD ""
  let num_keyframes := numKeyframes duration
  (List.range num_keyframes).map fun (idx : Nat) =>
    let keyframe_local_id := idx + 1
    let keyframe_id := keyframeId scene_id keyframe_local_id
    let timing : ℚ :=
      if num_keyframes = 1 then duration / 2
      else (duration / ((num_keyframes : ℚ) + 1)) * ((idx : ℚ) + 1)
    let descs := purposeDescs purpose description
    let keyframe_desc := descs.getD (min idx (descs.length - 1)) ""
    let image_path :=
      "storyboard/scene_" ++ optIntStr scene_id ++ "/keyframe_" ++ natDec keyframe_local_id ++ ".jpg"
    let character_info :=
      match selected_character with
      | none => ""
      | some c => ", " ++ c.name?.getD "" ++ " character, " ++ c.style?.getD "" ++ " style"
    let location_info :=
      match selected_location with
      | none => ""
      | some l => ", " ++ l.name?.getD "" ++ " location, " ++ l.style?.getD "" ++ " style"
    { id := keyframe_id,
      timing := round2 timing,
      description := keyframe_desc,
      image_path := image_path,
      image_prompt := keyframe_desc ++ ", emotion: " ++ emotion ++ character_info ++ location_info }

/-- Story as read by `build_storyboard` (a Python dict; required fields may be absent). -/
structure StoryIn where
  goal? : Option String
  product? : Option String
  audience? : Option String
  platform? : Option String
  scenes? : Option (List SceneIn)
deriving DecidableEq

/-- Story header block kept in the storyboard (values of `story.get(...)`). -/
structure StoryCtx where
  goal? : Option String
  product? : Option String
  audience? : Option String
  platform? : Option String
deriving DecidableEq

/-- Scene-with-keyframes record in the storyboard output. -/
structure SBScene where
  scene_id? : Option Int
  purpose? : Option String
  emotion? : Option String
  duration? : Option ℚ
  description? : Option String
  keyframes : List Keyframe
deriving DecidableEq

/-- Storyboard record produced by `build_storyboard`. -/
structure Storyboard where
  story : StoryCtx
  selected_character : Option CharLoc
  selected_location : Option CharLoc
  scenes : List SBScene
deriving DecidableEq

/-- Embedding of `build_storyboard`.  Raising `ValueError` becomes `.error`. -/
def build_storyboard (story : StoryIn)
    (selected_character selected_location : Option CharLoc) :
    Except String Storyboard :=
  if story.goal?.isNone then .error "story must contain goal field"
  else if story.product?.isNone then .error "story must contain product field"
  else if story.audience?.isNone then .error "story must contain audience field"
  else if story.platform?.isNone then .error "story must contain platform field"
  else if story.scenes?.isNone then .error "story must contain scenes field"
  else
    match story.scenes?.getD [] with
    | [] => .error "story must contain at least one scene"
    | scenes =>
      .ok { story := { goal? := story.goal?, product? := story.product?,
                       audience? := story.audience?, platform? := story.platform? },
            selected_character := selected_character,
            selected_location := selected_location,
            scenes := scenes.map fun scene =>
              { scene_id? := scene.id?, purpose? := scene.purpose?,
                emotion? := scene.emotion?, duration? := scene.duration?,
                description? := scene.description?,
                keyframes := map_scene_to_keyframes scene selected_character selected_location } }

/-- Selection dict in the Phase 2 output. -/
structure Selection where
  selected_character_id? : Option Int
  selected_location_id? : Option Int
deriving DecidableEq

/-- Phase 2 output dict as read by `build_storyboard_from_phase2`. -/
structure Phase2Output where
  story? : Option StoryIn
  characters? : Option (List CharLoc)
  locations? : Option (List CharLoc)
  selection? : Option Selection
deriving DecidableEq

/-- Embedding of `build_storyboard_from_phase2`.  An unmatched selected id does
not raise: the scan over candidates simply leaves the selection at `none`. -/
def build_storyboard_from_phase2 (phase2_output : Phase2Output)
    (selected_character_id selected_location_id : Option Int) :
    Except String Storyboard :=
  match phase2_output.story? with
  | none => .error "phase2_output must contain story field"
  | some story =>
    let characters := phase2_output.characters?.getD []
    let locations := phase2_output.locations?.getD []
    let selection := phase2_output.selection?.getD { selected_character_id? := none, selected_location_id? := none }
    let selected_character_id :=
      match selected_character_id with
      | none => selection.selected_character_id?
      | some c => some c
    let selected_location_id :=
      match selected_location_id with
      | none => selection.selected_location_id?
      | some l => some l
    let selected_character :=
      match selected_character_id with
      | none => none
      | some cid => characters.find? fun ch => ch.id? == some cid
    let selected_location :=
      match selected_location_id with
      | none => none
      | some lid => locations.find? fun loc => loc.id? == some lid
    build_storyboard story selected_character selected_location

/-- All keyframe ids of a storyboard, flattened across scenes in order. -/
def storyboardKeyframeIds (sb : Storyboard) : List String :=
  sb.scenes.flatMap fun s => s.keyframes.map Keyframe.id

/-! ## Phase 4: video plan generator (`phase4_video_plan.py`) -/

/-- Keyframe dict as read by `map_storyboard_to_segments`. -/
structure KfIn where
  id? : Option String
  image_path? : Option String
  description? : Option String
  timing? : Option ℚ
deriving DecidableEq

/-- Scene dict as read by `map_storyboard_to_segments`. -/
structure SBSceneIn where
  scene_id? : Option Int
  purpose? : Option String
  emotion? : Option String
  duration? : Option ℚ
  description? : Option String
  keyframes? : Option (List KfIn)
deriving DecidableEq

/-- Storyboard dict as read by `map_storyboard_to_segments` / `generate_video_plan`. -/
structure StoryboardIn where
  story? : Option StoryCtx
  selected_character? : Option CharLoc
  selected_location? : Option CharLoc
  scenes? : Option (List SBSceneIn)
deriving DecidableEq

/-- Validated keyframe object stored inside a Phase 4 segment. -/
structure KfOut where
  id : String
  image_path : String
  description : String
  timing : ℚ
deriving DecidableEq

/-- Segment record produced by `map_storyboard_to_segments`. -/
structure SegOut where
  id : Nat
  scene_id : Option Int
  duration : ℚ
  start_time : ℚ
  end_time : ℚ
  description : String
  purpose : String
  emotion : String
  start_keyframe : KfOut
  end_keyframe : KfOut
deriving DecidableEq

/-- Keyframe annotated with its owning scene's context (the `all_keyframes`
entries built by the flattening loop). -/
structure AnnKf where
  kf : KfIn
  scene_id : Option Int
  scene_duration : ℚ
  scene_purpose : String
  scene_emotion : String
deriving DecidableEq

/-- Flattening of all keyframes across all scenes, with scene context. -/
def flattenScenes (scenes : List SBSceneIn) : List AnnKf :=
  scenes.flatMap fun scene =>
    (scene.keyframes?.getD []).map fun keyframe =>
      { kf := keyframe, scene_id := scene.scene_id?,
        scene_duration := scene.duration?.getD 0,
        scene_purpose := scene.purpose?.getD "",
        scene_emotion := scene.emotion?.getD "" }

/-- Python falsiness of an optional string (`None` and `""` are falsy). -/
def optFalsy : Option String → Bool
  | none => true
  | some s => s == ""

/-- Validated fields of a keyframe dict: id, image_path, description, timing
(the `.get` reads performed by `map_storyboard_to_segments`). -/
def kfFields (k : KfIn) : String × String × String × ℚ :=
  (k.id?.getD "", k.image_path?.getD "", k.description?.getD "", k.timing?.getD 0)

/-- Keyframe validation of `map_storyboard_to_segments`: id, image_path and
description must be present and non-falsy. -/
def checkKf (prefixMsg : String) (idx : Nat) (k : KfIn) :
    Except String (String × String × String × ℚ) :=
  if optFalsy k.id? then
    .error (prefixMsg ++ natDec idx ++ " missing id field")
  else if optFalsy k.image_path? then
    .error (prefixMsg ++ natDec idx ++ " missing image_path field")
  else if optFalsy k.description? then
    .error (prefixMsg ++ natDec idx ++ " missing description field")
  else .ok (kfFields k)

/-- Raw duration of a segment from keyframe `a` to next keyframe `b`: scene
remainder when `b` lives in another scene, else the timing difference. -/
def rawDuration (a b : AnnKf) : ℚ :=
  if b.scene_id ≠ a.scene_id then a.scene_duration - (kfFields a.kf).2.2.2
  else (kfFields b.kf).2.2.2 - (kfFields a.kf).2.2.2

/-- The 1-second duration floor (`if segment_duration < 1.0: segment_duration = 1.0`). -/
def floor1 (q : ℚ) : ℚ := if q < 1 then 1 else q

/-- Segment construction loop of `map_storyboard_to_segments`: walks the
flattened keyframes carrying `current_time`, `segment_id` and the index. -/
def buildSegments : List AnnKf → ℚ → Nat → Nat → Except String (List SegOut)
  | [], _, _, _ => .ok []
  | a :: rest, current_time, segment_id, idx =>
    match checkKf "Keyframe at index " idx a.kf with
    | .error e => .error e
    | .ok (aid, apath, adesc, atiming) =>
      match rest with
      | b :: _ =>
        match checkKf "End keyframe at index " (idx + 1) b.kf with
        | .error e => .error e
        | .ok (bid, bpath, bdesc, btiming) =>
          let raw_duration : ℚ :=
            if b.scene_id ≠ a.scene_id then a.scene_duration - atiming
            else btiming - atiming
          let segment_duration := if raw_duration < 1 then 1 else raw_duration
          match buildSegments rest (current_time + segment_duration) (segment_id + 1) (idx + 1) with
          | .error e => .error e
          | .ok segs =>
            .ok ({ id := segment_id, scene_id := a.scene_id,
                   duration := round2 segment_duration,
                   start_time := round2 current_time,
                   end_time := round2 (current_time + segment_duration),
                   description := adesc ++ " → " ++ bdesc,
                   purpose := a.scene_purpose, emotion := a.scene_emotion,
                   start_keyframe := { id := aid, image_path := apath, description := adesc,
                                       timing := round2 atiming },
                   end_keyframe := { id := bid, image_path := bpath, description := bdesc,
                                     timing := round2 btiming } } :: segs)
      | [] =>
        let end_timing : ℚ := atiming + a.scene_duration - atiming
        let raw_duration : ℚ := a.scene_duration - atiming
        let segment_duration := if raw_duration < 1 then 1 else raw_duration
        .ok [ { id := segment_id, scene_id := a.scene_id,
                duration := round2 segment_duration,
                start_time := round2 current_time,
                end_time := round2 (current_time + segment_duration),
                description := adesc ++ " → " ++ adesc,
                purpose := a.scene_purpose, emotion := a.scene_emotion,
                start_keyframe := { id := aid, image_path := apath, description := adesc,
                                    timing := round2 atiming },
                end_keyframe := { id := aid, image_path := apath, description := adesc,
                                  timing := round2 end_timing } } ]

/-- Embedding of `map_storyboard_to_segments`. -/
def map_storyboard_to_segments (storyboard : StoryboardIn) : Except String (List SegOut) :=
  match storyboard.scenes? with
  | none => .error "storyboard must contain scenes field"
  | some scenes =>
    if scenes.isEmpty then .error "storyboard must contain at least one scene"
    else buildSegments (flattenScenes scenes) 0 1 0

/-- Metadata block of the video plan. -/
structure PlanMeta where
  story : StoryCtx
  selected_character : Option CharLoc
  selected_location : Option CharLoc
deriving DecidableEq

/-- Video plan record produced by `generate_video_plan`. -/
structure VideoPlan where
  storyboard_metadata : PlanMeta
  segments : List SegOut
  total_duration : ℚ
  segment_count : Nat
deriving DecidableEq

/-- Embedding of `generate_video_plan`. -/
def generate_video_plan (storyboard : StoryboardIn) : Except String VideoPlan := do
  let segments ← map_storyboard_to_segments storyboard
  let total_duration : ℚ :=
    match segments.getLast? with
    | some last => last.end_time
    | none => 0
  .ok { storyboard_metadata :=
          { story := storyboard.story?.getD
              { goal? := none, product? := none, audience? := none, platform? := none },
            selected_character := storyboard.selected_character?,
            selected_location := storyboard.selected_location? },
        segments := segments,
        total_duration := round2 total_duration,
        segment_count := segments.length }

/-! ## Phase 5.5: assembler (`phase5_assembler.py`) -/

/-- Result record of `assemble_video`.  The `except` branch of the Python
source is unreachable here because `mock_video_stitch` is total (it only
builds a path string), so the error-shape fields are omitted. -/
structure AssembleResult where
  success : Bool
  output_path : String
  failed_segments : List Nat
  retry_count : Nat
  total_segments : Nat
  successful_segments : Nat
deriving DecidableEq

/-- Embedding of `mock_video_stitch`: returns the caller-supplied path or a
generated timestamped path (timestamp and uuid fragment passed as oracles). -/
def mock_video_stitch (output_path : Option String) (ts uid : String) : String :=
  match output_path with
  | none => "output/final_video_" ++ ts ++ "_" ++ uid ++ ".mp4"
  | some p => p

/-- Python truthiness of a segment path (`segment_path and len(segment_path) > 0`);
a `None` entry or an empty string is a failed segment. -/
def pathTruthy : Option String → Bool
  | none => false
  | some s => !(s == "")

/-- Classification loop of `assemble_video`: valid paths and failed indices. -/
def classifySegments : List (Option String) → Nat → List String × List Nat
  | [], _ => ([], [])
  | p :: rest, idx =>
    let (valid, failed) := classifySegments rest (idx + 1)
    if pathTruthy p then ((p.getD "") :: valid, failed) else (valid, idx :: failed)

/-- Embedding of `assemble_video`. -/
def assemble_video (segment_paths : List (Option String)) (output_path : Option String)
    (retry_failed : Bool) (max_retries : Nat) (ts uid : String) :
    Except String AssembleResult :=
  if segment_paths.isEmpty then .error "segment_paths cannot be empty"
  else
    let (valid_segments, failed_segments) := classifySegments segment_paths 0
    let retry_count : Nat :=
      if retry_failed ∧ ¬failed_segments.isEmpty ∧ 0 < max_retries then 1 else 0
    let final_path := mock_video_stitch output_path ts uid
    .ok { success := failed_segments.isEmpty,
          output_path := final_path,
          failed_segments := failed_segments,
          retry_count := retry_count,
          total_segments := segment_paths.length,
          successful_segments := valid_segments.length }

/-! ## Provider adapters (`adapters/__init__.py`, `strategy.py`,
`google_providers.py`, `stub_providers.py`) -/

/-- Environment variables read by the adapter layer. -/
structure Env where
  image_provider? : Option String
  vertex_api_key? : Option String
  vertex_project_id? : Option String
  vertex_location? : Option String
deriving DecidableEq

/-- Image provider instances that the factory can return. -/
inductive ImgProvider where
  | mock : ImgProvider
  | google (api_key project_id location : String) : ImgProvider
  | stub : ImgProvider
deriving DecidableEq

/-- Python falsiness of an optional credential string. -/
def credFalsy : Option String → Bool
  | none => true
  | some s => s == ""

/-- Embedding of `GoogleImageProvider.__init__`: raises a
`ProviderAuthenticationError` when credentials are missing. -/
def googleImageProviderInit (env : Env) : Except String ImgProvider :=
  let api_key := env.vertex_api_key?
  let project_id := env.vertex_project_id?
  let location := env.vertex_location?.getD "us-central1"
  if credFalsy api_key || credFalsy project_id then
    .error "Missing required credentials: VERTEX_API_KEY and VERTEX_PROJECT_ID must be set"
  else .ok (.google (api_key.getD "") (project_id.getD "") location)

/-- Registered provider factories (`register_provider_factory` calls). -/
def get_provider_factory (name : String) : Option (Env → Except String ImgProvider) :=
  if name = "mock" then some fun _ => .ok .mock
  else if name = "google" then some googleImageProviderInit
  else if name = "stub" then some fun _ => .ok .stub
  else none

/-- Embedding of `try_provider`: initialize a provider, catching exceptions. -/
def try_provider (env : Env) (name : String) : Option ImgProvider × Option String :=
  match get_provider_factory name with
  | none => (none, some ("Provider factory not found: " ++ name))
  | some factory =>
    match factory env with
    | .ok provider => (some provider, none)
    | .error e => (none, some e)

/-- Embedding of `get_provider_with_fallback`: try providers in order, ending at
the fallback; accumulated warnings are returned alongside the provider. -/
def get_provider_with_fallback (env : Env) :
    List String → List String → String → Except String (ImgProvider × List String)
  | [], warnings, fallback_name =>
    match try_provider env fallback_name with
    | (some provider, _) =>
      .ok (provider, warnings ++ ["All providers failed. Using fallback: " ++ fallback_name])
    | (none, fallback_error) =>
      .error ("Critical error: Fallback provider " ++ fallback_name ++ " failed: "
        ++ fallback_error.getD "")
  | name :: rest, warnings, fallback_name =>
    match try_provider env name with
    | (some provider, _) => .ok (provider, warnings)
    | (none, e) =>
      get_provider_with_fallback env rest
        (warnings ++ ["Failed to initialize provider " ++ name ++ ": " ++ e.getD ""
          ++ ". Trying next provider in chain."]) fallback_name

/-- Embedding of `get_auto_provider` (priority google, stub; fallback mock). -/
def get_auto_provider (env : Env) : Except String (ImgProvider × List String) :=
  get_provider_with_fallback env ["google", "stub"] [] "mock"

/-- IMAGE_PROVIDER_TYPE: env var defaulted to "mock" and lowercased. -/
def imageProviderType (env : Env) : String := (env.image_provider?.getD "mock").toLower

/-- Embedding of `get_image_provider`.  The result pairs the provider with the
list of warnings emitted (`warnings.warn` calls). -/
def get_image_provider (env : Env) : Except String (ImgProvider × List String) :=
  let t := imageProviderType env
  if t = "mock" then .ok (.mock, [])
  else if t = "auto" then get_auto_provider env
  else if t = "google" then
    match try_provider env "google" with
    | (some provider, _) => .ok (provider, [])
    | (none, e) =>
      .ok (.mock, ["Failed to initialize GoogleImageProvider: " ++ e.getD ""
        ++ ". Falling back to mock."])
  else if t = "stub" then
    match try_provider env "stub" with
    | (some provider, _) => .ok (provider, [])
    | (none, e) =>
      .ok (.mock, ["Failed to initialize StubImageProvider: " ++ e.getD ""
        ++ ". Falling back to mock."])
  else
    .ok (.mock, ["Unknown IMAGE_PROVIDER value: " ++ t ++ ". Falling back to mock."])

/-! ## Phase 5: segment renderer (`phase5_segment_renderer.py`)

The renderer must be total over arbitrary dictionary-shaped input, so it is
embedded over a JSON-like value type.  Numbers are exact rationals. -/

/-- JSON-like Python value. -/
inductive JVal where
  | null : JVal
  | jbool (b : Bool) : JVal
  | jnum (q : ℚ) : JVal
  | jstr (s : String) : JVal
  | jarr (xs : List JVal) : JVal
  | jobj (kvs : List (String × JVal)) : JVal

/-- Lookup in a dict (first matching key). -/
def jLookup : List (String × JVal) → String → Option JVal
  | [], _ => none
  | (k, v) :: rest, key => if k = key then some v else jLookup rest key

/-- Python `key in dict`. -/
def jMem (kvs : List (String × JVal)) (key : String) : Bool :=
  (jLookup kvs key).isSome

/-- Python `dict.get(key, default)`. -/
def jGetD (kvs : List (String × JVal)) (key : String) (dflt : JVal) : JVal :=
  (jLookup kvs key).getD dflt

/-- Python `dict[key] = value`: replace in place or append. -/
def jSet : List (String × JVal) → String → JVal → List (String × JVal)
  | [], key, v => [(key, v)]
  | (k, w) :: rest, key, v =>
    if k = key then (k, v) :: rest else (k, w) :: jSet rest key v

/-- Python truthiness of a value. -/
def truthy : JVal → Bool
  | .null => false
  | .jbool b => b
  | .jnum q => !(q == 0)
  | .jstr s => !(s == "")
  | .jarr xs => !xs.isEmpty
  | .jobj kvs => !kvs.isEmpty

/-- Python `str(...)` as used in f-strings.  Container and fraction rendering
is abstracted (only the string/int/None cases are exercised by the pipeline). -/
def pyStr : JVal → String
  | .null => "None"
  | .jbool true => "True"
  | .jbool false => "False"
  | .jnum q => if q.den == 1 then intDec q.num else intDec q.num ++ "/" ++ natDec q.den
  | .jstr s => s
  | .jarr _ => "<list>"
  | .jobj _ => "<dict>"

/-- Python name of the runtime type, for error messages. -/
def jTypeName : JVal → String
  | .null => "NoneType"
  | .jbool _ => "bool"
  | .jnum _ => "number"
  | .jstr _ => "str"
  | .jarr _ => "list"
  | .jobj _ => "dict"

/-- Attribute access `v.get(key, default)`: raises `AttributeError` when `v`
is not a dict (modelled as `.error`). -/
def jGetDE (v : JVal) (key : String) (dflt : JVal) : Except String JVal :=
  match v with
  | .jobj kvs => .ok (jGetD kvs key dflt)
  | other => .error (jTypeName other ++ " object has no attribute get")

/-- Python `v == "none"` for an arbitrary value (cross-type equality is False). -/
def eqStrNone : JVal → Bool
  | .jstr s => s == "none"
  | _ => false

/-- Embedding of `build_render_prompt`.  Exceptions become `.error`. -/
def build_render_prompt (segment story_context : JVal) : Except String String :=
  match segment with
  | .jobj kvs =>
    if ¬ jMem kvs "start_keyframe" then .error "segment must have start_keyframe field"
    else if ¬ jMem kvs "end_keyframe" then .error "segment must have end_keyframe field"
    else
      let start_kf := jGetD kvs "start_keyframe" .null
      let end_kf := jGetD kvs "end_keyframe" .null
      let directive := jGetD kvs "directive" (.jobj [])
      let continuity := jGetD kvs "continuity_locks" (.jobj [])
      match start_kf with
      | .jobj skvs =>
        if ¬ jMem skvs "description" then
          .error "segment start_keyframe must be an object with description field"
        else
          match end_kf with
          | .jobj ekvs =>
            if ¬ jMem ekvs "description" then
              .error "segment end_keyframe must be an object with description field"
            else do
              let parts0 := [ "Start: " ++ pyStr (jGetD skvs "description" .null),
                              "End: " ++ pyStr (jGetD ekvs "description" .null) ]
              let cChar ← jGetDE continuity "character" .null
              let parts1 := if truthy cChar then parts0 ++ ["Character: " ++ pyStr cChar] else parts0
              let cLoc ← jGetDE continuity "location" .null
              let parts2 := if truthy cLoc then parts1 ++ ["Location: " ++ pyStr cLoc] else parts1
              let cStyle ← jGetDE continuity "style" .null
              let parts3 := if truthy cStyle then parts2 ++ ["Style: " ++ pyStr cStyle] else parts2
              let cEmotion ← jGetDE continuity "emotion" .null
              let parts4 := if truthy cEmotion then parts3 ++ ["Emotion: " ++ pyStr cEmotion] else parts3
              let motion ← jGetDE directive "motion_type" (.jstr "smooth")
              let camera ← jGetDE directive "camera_movement" (.jstr "none")
              let transition ← jGetDE directive "transition_style" (.jstr "fade")
              let parts5 := parts4 ++ ["Motion: " ++ pyStr motion]
              let parts6 :=
                if eqStrNone camera then parts5 else parts5 ++ ["Camera: " ++ pyStr camera]
              let parts7 := parts6 ++ ["Transition: " ++ pyStr transition]
              let parts8 ←
                if truthy story_context then do
                  let product ← jGetDE story_context "product" (.jstr "")
                  let platform ← jGetDE story_context "platform" (.jstr "")
                  let pa := if truthy product then parts7 ++ ["Product context: " ++ pyStr product] else parts7
                  let pb := if truthy platform then pa ++ ["Platform: " ++ pyStr platform] else pa
                  pure pb
                else pure parts7
              let parts9 := parts8 ++ ["Duration: 8 seconds"]
              .ok (String.intercalate " | " parts9)
          | _ =>
            .error "segment end_keyframe must be an object with description field"
      | _ =>
        .error "segment start_keyframe must be an object with description field"
  | _ => .error "argument of type is not a dict"

/-- Video-generation call: prompt, start/end keyframe image paths (arbitrary
values in Python), duration.  An exception is `.error`. -/
def ApiCall : Type :=
  String → JVal → JVal → ℚ → Except String JVal

/-- Embedding of `mock_google_video_generation`.  The wall-clock timestamp, the
uuid fragment and Python string hashing are nondeterministic, so they are
passed as oracle parameters. -/
def mock_google_video_generation (ts uid : String) (hashFn : String → Int)
    (prompt : String) (start_keyframe_path end_keyframe_path : JVal) (duration : ℚ) : JVal :=
  let video_id := hashFn prompt % 1000000
  let video_path := "output/segments/segment_" ++ intDec video_id ++ "_" ++ ts ++ "_" ++ uid ++ ".mp4"
  .jobj [ ("success", .jbool true),
          ("video_path", .jstr video_path),
          ("duration", .jnum duration),
          ("metadata", .jobj [ ("prompt", .jstr prompt),
                               ("start_keyframe", start_keyframe_path),
                               ("end_keyframe", end_keyframe_path),
                               ("generated_at", .jstr ts),
                               ("api_version", .jstr "mock_v1.0") ]) ]

/-- The mock API as an `ApiCall` (it never raises). -/
def mockApi (ts uid : String) (hashFn : String → Int) : ApiCall :=
  fun prompt sp ep duration =>
    .ok (mock_google_video_generation ts uid hashFn prompt sp ep duration)

/-- Failure result record of `render_segment` (every failure return literal of
the source has this shape, always with `duration` 8.0). -/
def failRecord (segment_id prompt : JVal) (err : String) : JVal :=
  .jobj [ ("success", .jbool false),
          ("segment_id", segment_id),
          ("video_path", .null),
          ("duration", .jnum 8),
          ("prompt", prompt),
          ("error", .jstr err) ]

/-- The `for field in required_fields` loop of `render_segment`. -/
def firstMissingField : List String → List (String × JVal) → Option String
  | [], _ => none
  | f :: rest, kvs =>
    if ¬ jMem kvs f then some ("segment must have " ++ f ++ " field")
    else firstMissingField rest kvs

/-- The `for field in required_keyframe_fields` loop of `render_segment`
(checks start then end for each field). -/
def firstMissingKfField : List String → List (String × JVal) → List (String × JVal) → Option String
  | [], _, _ => none
  | f :: rest, skvs, ekvs =>
    if ¬ jMem skvs f then some ("segment start_keyframe missing required field " ++ f)
    else if ¬ jMem ekvs f then some ("segment end_keyframe missing required field " ++ f)
    else firstMissingKfField rest skvs ekvs

/-- Handling of the (possibly raising) video-generation call inside the
`try` block of `render_segment`. -/
def renderCallResult (segment_id : JVal) (prompt : String) (original_duration : JVal)
    (res : Except String JVal) : JVal :=
  match res with
  | .error e => failRecord segment_id (.jstr prompt) ("API error: " ++ e)
  | .ok api_result =>
    match api_result with
    | .jobj rkvs =>
      if truthy (jGetD rkvs "success" .null) then
        match jGetD rkvs "metadata" (.jobj []) with
        | .jobj mkvs =>
          .jobj [ ("success", .jbool true),
                  ("segment_id", segment_id),
                  ("video_path", jGetD rkvs "video_path" .null),
                  ("duration", .jnum 8),
                  ("prompt", .jstr prompt),
                  ("error", .null),
                  ("metadata", .jobj (jSet mkvs "original_duration" original_duration)) ]
        | _ =>
          failRecord segment_id (.jstr prompt)
            "API error: metadata object does not support item assignment"
      else failRecord segment_id (.jstr prompt) "API call failed"
    | _ =>
      failRecord segment_id (.jstr prompt)
        "API error: api result object has no attribute get"

/-- Body of `render_segment` after the `id` check (the segment id is known to
be non-`None` here). -/
def renderWithId (api : ApiCall) (kvs : List (String × JVal)) (segment_id : JVal)
    (segment story_context : JVal) : JVal :=
  match firstMissingField ["start_keyframe", "end_keyframe", "directive", "continuity_locks"] kvs with
  | some err => failRecord segment_id .null err
  | none =>
    match jGetD kvs "start_keyframe" .null with
    | .jobj skvs =>
      match jGetD kvs "end_keyframe" .null with
      | .jobj ekvs =>
        match firstMissingKfField ["id", "image_path", "description", "timing"] skvs ekvs with
        | some err => failRecord segment_id .null err
        | none =>
          let original_duration := jGetD kvs "duration" (.jnum 8)
          match build_render_prompt segment story_context with
          | .error e => failRecord segment_id .null ("failed to build prompt: " ++ e)
          | .ok prompt =>
            let start_keyframe_path := jGetD skvs "image_path" .null
            let end_keyframe_path := jGetD ekvs "image_path" .null
            renderCallResult segment_id prompt original_duration
              (api prompt start_keyframe_path end_keyframe_path 8)
      | other =>
        failRecord segment_id .null
          ("segment end_keyframe must be an object (dict), got " ++ jTypeName other)
    | other =>
      failRecord segment_id .null
        ("segment start_keyframe must be an object (dict), got " ++ jTypeName other)

/-- Embedding of `render_segment`: total over arbitrary input, always returns a
result record and never raises. -/
def render_segment (api : ApiCall) (segment story_context : JVal) : JVal :=
  match segment with
  | .jobj kvs =>
    match jGetD kvs "id" .null with
    | .null => failRecord .null .null "segment must have id field"
    | segment_id => renderWithId api kvs segment_id segment story_context
  | _ =>
    failRecord .null .null "segment must be a dictionary"

/-- Embedding of `create_segment_schema`.  The `duration` field is hard-fixed
to 8.0 here, independently of whatever the Phase 4 segment carried. -/
def create_segment_schema (segment_id : JVal)
    (start_keyframe end_keyframe directive continuity_locks : List (String × JVal))
    (metadata : Option JVal) : JVal :=
  let base :=
    [ ("id", segment_id),
      ("duration", JVal.jnum 8),
      ("start_keyframe", JVal.jobj
        [ ("id", jGetD start_keyframe "id" .null),
          ("image_path", jGetD start_keyframe "image_path" .null),
          ("description", jGetD start_keyframe "description" .null),
          ("timing", jGetD start_keyframe "timing" (.jnum 0)) ]),
      ("end_keyframe", JVal.jobj
        [ ("id", jGetD end_keyframe "id" .null),
          ("image_path", jGetD end_keyframe "image_path" .null),
          ("description", jGetD end_keyframe "description" .null),
          ("timing", jGetD end_keyframe "timing" (.jnum 0)) ]),
      ("directive", JVal.jobj
        [ ("motion_type", jGetD directive "motion_type" (.jstr "smooth")),
          ("camera_movement", jGetD directive "camera_movement" (.jstr "none")),
          ("transition_style", jGetD directive "transition_style" (.jstr "fade")) ]),
      ("continuity_locks", JVal.jobj
        [ ("character", jGetD continuity_locks "character" .null),
          ("location", jGetD continuity_locks "location" .null),
          ("style", jGetD continuity_locks "style" .null),
          ("emotion", jGetD continuity_locks "emotion" .null) ]) ]
  match metadata with
  | some m => if truthy m then .jobj (base ++ [("metadata", m)]) else .jobj base
  | none => .jobj base

/-- The strict per-field keyframe validation loop of
`render_segments_from_video_plan` (raises rather than recording a failure). -/
def checkPlanKfField (segIdStr : String) :
    List String → List (String × JVal) → List (String × JVal) → Option String
  | [], _, _ => none
  | f :: rest, skvs, ekvs =>
    if ¬ jMem skvs f then
      some ("Segment " ++ segIdStr ++ " start_keyframe missing required field " ++ f)
    else if ¬ jMem ekvs f then
      some ("Segment " ++ segIdStr ++ " end_keyframe missing required field " ++ f)
    else checkPlanKfField segIdStr rest skvs ekvs

/-- Per-segment body of the rendering loop of `render_segments_from_video_plan`:
validates the Phase 4 segment strictly, builds the Phase 5 segment schema
(fetching continuity locks from the storyboard metadata) and renders it. -/
def renderPlanSegment (api : ApiCall) (story_context : JVal)
    (plan_kvs : List (String × JVal)) (segment : JVal) : Except String JVal :=
  match segment with
  | .jobj skvs0 =>
    let segIdStr := pyStr (jGetD skvs0 "id" .null)
    if ¬ jMem skvs0 "start_keyframe" then
      .error ("Segment " ++ segIdStr ++ " missing start_keyframe field. Phase 4 must provide start_keyframe object.")
    else if ¬ jMem skvs0 "end_keyframe" then
      .error ("Segment " ++ segIdStr ++ " missing end_keyframe field. Phase 4 must provide end_keyframe object.")
    else
      match jGetD skvs0 "start_keyframe" .null with
      | .jobj start_kvs =>
        match jGetD skvs0 "end_keyframe" .null with
        | .jobj end_kvs =>
          match checkPlanKfField segIdStr ["id", "image_path", "description", "timing"] start_kvs end_kvs with
          | some err => .error err
          | none => do
            let storyboard_metadata := jGetD plan_kvs "storyboard_metadata" (.jobj [])
            let selected_character ← jGetDE storyboard_metadata "selected_character" .null
            let selected_location ← jGetDE storyboard_metadata "selected_location" .null
            let character ←
              if truthy selected_character then jGetDE selected_character "name" .null
              else pure .null
            let location ←
              if truthy selected_location then jGetDE selected_location "name" .null
              else pure .null
            let phase5_segment := create_segment_schema (jGetD skvs0 "id" .null)
              start_kvs end_kvs
              [ ("motion_type", .jstr "smooth"),
                ("camera_movement", .jstr "none"),
                ("transition_style", .jstr "fade") ]
              [ ("character", character),
                ("location", location),
                ("style", .null),
                ("emotion", jGetD skvs0 "emotion" .null) ]
              (some (.jobj
                [ ("scene_id", jGetD skvs0 "scene_id" .null),
                  ("purpose", jGetD skvs0 "purpose" .null),
                  ("original_duration", jGetD skvs0 "duration" .null) ]))
            .ok (render_segment api phase5_segment story_context)
        | other =>
          .error ("Segment " ++ segIdStr ++ " end_keyframe must be an object (dict), got " ++ jTypeName other)
      | other =>
        .error ("Segment " ++ segIdStr ++ " start_keyframe must be an object (dict), got " ++ jTypeName other)
  | other => .error ("argument of type " ++ jTypeName other ++ " does not support in")

/-- The rendering loop: returns (rendered results, successful count, failed ids). -/
def renderLoop (api : ApiCall) (story_context : JVal) (plan_kvs : List (String × JVal)) :
    List JVal → Except String (List JVal × Nat × List JVal)
  | [] => .ok ([], 0, [])
  | segment :: rest => do
    let result ← renderPlanSegment api story_context plan_kvs segment
    let (results, successful, failed) ← renderLoop api story_context plan_kvs rest
    let ok := truthy (match result with | .jobj rk => jGetD rk "success" .null | _ => .null)
    let segId := match segment with | .jobj sk => jGetD sk "id" .null | _ => .null
    if ok then .ok (result :: results, successful + 1, failed)
    else .ok (result :: results, successful, segId :: failed)

/-- Resolution of the story context (`if story_context is None: ...` in the
batch renderer); may raise if the storyboard metadata is not a dict. -/
def ctxFromPlan (plan_kvs : List (String × JVal)) (story_context : JVal) :
    Except String JVal :=
  match story_context with
  | .null => jGetDE (jGetD plan_kvs "storyboard_metadata" (.jobj [])) "story" .null
  | c => .ok c

/-- The loop plus the final batch record of `render_segments_from_video_plan`. -/
def renderBatchCore (api : ApiCall) (ctx : JVal) (plan_kvs : List (String × JVal))
    (segs : List JVal) : Except String JVal :=
  match renderLoop api ctx plan_kvs segs with
  | .error e => .error e
  | .ok (rendered, successful, failed) =>
    .ok (.jobj
      [ ("success", .jbool failed.isEmpty),
        ("total_segments", .jnum segs.length),
        ("successful_segments", .jnum successful),
        ("failed_segments", .jarr failed),
        ("rendered_segments", .jarr rendered) ])

/-- Embedding of `render_segments_from_video_plan`. -/
def render_segments_from_video_plan (api : ApiCall) (video_plan story_context : JVal) :
    Except String JVal :=
  match video_plan with
  | .jobj plan_kvs =>
    if ¬ jMem plan_kvs "segments" then .error "video_plan must contain segments field"
    else
      let segments := jGetD plan_kvs "segments" (.jarr [])
      if ¬ truthy segments then .error "video_plan must contain at least one segment"
      else
        match segments with
        | .jarr segs =>
          match ctxFromPlan plan_kvs story_context with
          | .error e => .error e
          | .ok ctx => renderBatchCore api ctx plan_kvs segs
        | other => .error (jTypeName other ++ " object is not iterable")
  | _ => .error "video_plan must be a dictionary"

/-- Field access on a result record. -/
def resField (v : JVal) (key : String) : Option JVal :=
  match v with
  | .jobj kvs => jLookup kvs key
  | _ => none

/-- Checks that a result record carries `duration` 8.0. -/
def durationIs8 (v : JVal) : Bool :=
  match resField v "duration" with
  | some (.jnum q) => q == 8
  | _ => false

/-- List of rendered segment results inside a batch result. -/
def renderedList (x : Except String JVal) : List JVal :=
  match x with
  | .ok v =>
    match resField v "rendered_segments" with
    | some (.jarr l) => l
    | _ => []
  | .error _ => []

/-- First rendered segment result of a batch result, when any. -/
def firstRendered (x : Except String JVal) : Option JVal :=
  match renderedList x with
  | [] => none
  | r :: _ => some r

/-! ## Theorems for the claims -/

/-- C6: for all four string inputs, `generate_story` returns exactly 4 scenes
whose purposes are hook, conflict, reveal, close in that order, whose durations
are 3, 5, 5, 4 seconds (all positive), and whose ids are 1, 2, 3, 4. -/
theorem generate_story_fixed_scenes (goal product audience platform : String) :
    ((generate_story goal product audience platform).scenes.map Scene.purpose
        = ["hook", "conflict", "reveal", "close"]) ∧
    ((generate_story goal product audience platform).scenes.map Scene.duration
        = [3, 5, 5, 4]) ∧
    ((generate_story goal product audience platform).scenes.map Scene.id
        = [1, 2, 3, 4]) ∧
    (∀ s ∈ (generate_story goal product audience platform).scenes, 0 < s.duration) := by
  refine ⟨rfl, rfl, rfl, ?_⟩
  intro s hs
  simp only [generate_story, List.mem_cons, List.not_mem_nil, or_false] at hs
  rcases hs with h | h | h | h <;> subst h <;> norm_num

/-- Helper: with falsy credentials, the google factory fails inside `try_provider`. -/
theorem try_provider_google_no_creds (env : Env)
    (hc : (credFalsy env.vertex_api_key? || credFalsy env.vertex_project_id?) = true) :
    try_provider env "google" =
      (none, some "Missing required credentials: VERTEX_API_KEY and VERTEX_PROJECT_ID must be set") := by
  simp [try_provider, get_provider_factory, googleImageProviderInit, hc]

/-- C9: `get_image_provider` never raises for any IMAGE_PROVIDER value; under
IMAGE_PROVIDER=google with missing credentials it returns the mock provider and
emits a warning, and an unknown IMAGE_PROVIDER value also yields the mock
provider with a warning. -/
theorem get_image_provider_total_fallback (env : Env) :
    (∃ p ws, get_image_provider env = .ok (p, ws)) ∧
    (imageProviderType env = "google" →
      (credFalsy env.vertex_api_key? || credFalsy env.vertex_project_id?) = true →
      ∃ w ws, get_image_provider env = .ok (ImgProvider.mock, w :: ws)) ∧
    (imageProviderType env ∉ (["mock", "auto", "google", "stub"] : List String) →
      ∃ w ws, get_image_provider env = .ok (ImgProvider.mock, w :: ws)) := by
  by_cases h1 : imageProviderType env = "mock"
  · refine ⟨⟨.mock, [], by simp [get_image_provider, h1]⟩, ?_, ?_⟩
    · intro h2
      exact absurd (h1.symm.trans h2) (by decide)
    · intro h3
      exact absurd (by rw [h1]; simp) h3
  · by_cases h2 : imageProviderType env = "auto"
    · refine ⟨?_, ?_, ?_⟩
      · by_cases hc : (credFalsy env.vertex_api_key? || credFalsy env.vertex_project_id?) = true
        · simp [get_image_provider, h1, h2, get_auto_provider, get_provider_with_fallback,
            try_provider, get_provider_factory, googleImageProviderInit, hc]
        · simp only [Bool.not_eq_true, Bool.or_eq_false_iff] at hc
          simp [get_image_provider, h1, h2, get_auto_provider, get_provider_with_fallback,
            try_provider, get_provider_factory, googleImageProviderInit, hc.1, hc.2]
      · intro h3
        exact absurd (h2.symm.trans h3) (by decide)
      · intro h3
        exact absurd (by rw [h2]; simp) h3
    · by_cases h3 : imageProviderType env = "google"
      · refine ⟨?_, ?_, ?_⟩
        · by_cases hc : (credFalsy env.vertex_api_key? || credFalsy env.vertex_project_id?) = true
          · simp [get_image_provider, h1, h2, h3, try_provider_google_no_creds env hc]
          · simp only [Bool.not_eq_true, Bool.or_eq_false_iff] at hc
            simp [get_image_provider, h1, h2, h3, try_provider, get_provider_factory,
              googleImageProviderInit, hc.1, hc.2]
        · intro _ hc
          simp [get_image_provider, h1, h2, h3, try_provider_google_no_creds env hc]
        · intro hmem
          exact absurd (by rw [h3]; simp) hmem
      · by_cases h4 : imageProviderType env = "stub"
        · refine ⟨?_, ?_, ?_⟩
          · simp [get_image_provider, h1, h2, h3, h4, try_provider, get_provider_factory]
          · intro h5
            exact absurd (h4.symm.trans h5) (by decide)
          · intro h5
            exact absurd (by rw [h4]; simp) h5
        · refine ⟨?_, ?_, ?_⟩
          · simp [get_image_provider, h1, h2, h3, h4]
          · intro h5
            exact absurd h5 h3
          · intro _
            simp [get_image_provider, h1, h2, h3, h4]

/-- The classification loop partitions the indices: valid plus failed counts
add up to the number of paths. -/
theorem classifySegments_len (l : List (Option String)) (i : Nat) :
    (classifySegments l i).1.length + (classifySegments l i).2.length = l.length := by
  induction l generalizing i with
  | nil => rfl
  | cons p rest ih =>
    have ih' := ih (i + 1)
    simp only [classifySegments]
    cases hp : pathTruthy p <;> simp [hp] <;> omega

/-- A generated final-video path is never the empty string. -/
theorem mock_video_stitch_none_ne_empty (ts uid : String) :
    mock_video_stitch none ts uid ≠ "" := by
  intro h
  have hdata := congrArg String.data h
  simp only [mock_video_stitch, string_data_append] at hdata
  simp at hdata

/-- C3 (amended): for every non-empty list of segment paths, `assemble_video`
returns a record with `successful_segments + len(failed_segments) ==
total_segments` and `success` true exactly when no segment failed; and when
the caller did not pass an explicitly empty output path, `success` implies a
non-empty `output_path`. -/
theorem assemble_video_invariants (segment_paths : List (Option String))
    (output_path : Option String) (retry_failed : Bool) (max_retries : Nat) (ts uid : String)
    (hne : segment_paths ≠ [])
    (hout : output_path = none ∨ ∃ p, output_path = some p ∧ p ≠ "") :
    ∃ r, assemble_video segment_paths output_path retry_failed max_retries ts uid = .ok r ∧
      r.successful_segments + r.failed_segments.length = r.total_segments ∧
      (r.success = true ↔ r.failed_segments = []) ∧
      (r.success = true → r.output_path ≠ "") := by
  have hempty : segment_paths.isEmpty = false := by
    cases segment_paths with
    | nil => exact absurd rfl hne
    | cons a l => rfl
  rcases hcl : classifySegments segment_paths 0 with ⟨valid, failed⟩
  have hlen := classifySegments_len segment_paths 0
  rw [hcl] at hlen
  refine ⟨{ success := failed.isEmpty,
            output_path := mock_video_stitch output_path ts uid,
            failed_segments := failed,
            retry_count :=
              if retry_failed = true ∧ ¬failed.isEmpty = true ∧ 0 < max_retries then 1 else 0,
            total_segments := segment_paths.length,
            successful_segments := valid.length }, ?_, ?_, ?_, ?_⟩
  · simp only [assemble_video, hempty, Bool.false_eq_true, if_false, hcl]
  · exact hlen
  · simp [List.isEmpty_iff]
  · intro _
    rcases hout with h | ⟨p, hp, hpne⟩
    · subst h
      exact mock_video_stitch_none_ne_empty ts uid
    · subst hp
      simpa [mock_video_stitch] using hpne

/-- C3 counterexample: with an explicitly empty output path, `assemble_video`
returns success with an empty `output_path`, so "success implies non-empty
output_path" fails as universally stated. -/
theorem assemble_video_empty_output_counterexample :
    ¬ (∀ r, assemble_video [some "a"] (some "") true 3 "T" "U" = .ok r →
        r.success = true → r.output_path ≠ "") := by
  intro h
  exact h { success := true, output_path := "", failed_segments := [], retry_count := 0,
            total_segments := 1, successful_segments := 1 } rfl rfl rfl

/-- Shape of `renderCallResult`: an object with duration 8, either a failure
record with an error string or a success record exposing the api video path. -/
theorem renderCallResult_spec (segment_id : JVal) (prompt : String) (od : JVal)
    (res : Except String JVal) :
    ∃ kvs, renderCallResult segment_id prompt od res = .jobj kvs ∧
      jLookup kvs "duration" = some (.jnum 8) ∧
      ((jLookup kvs "success" = some (.jbool false) ∧ ∃ e, jLookup kvs "error" = some (.jstr e)) ∨
       (jLookup kvs "success" = some (.jbool true) ∧
        ∃ rkvs, res = .ok (.jobj rkvs) ∧
          truthy (jGetD rkvs "success" .null) = true ∧
          jLookup kvs "video_path" = some (jGetD rkvs "video_path" .null))) := by
  cases res with
  | error e => exact ⟨_, rfl, rfl, Or.inl ⟨rfl, _, rfl⟩⟩
  | ok api_result =>
    cases api_result with
    | jobj rkvs =>
      unfold renderCallResult
      dsimp only
      by_cases hs : truthy (jGetD rkvs "success" .null) = true
      · rw [if_pos hs]
        cases hm : jGetD rkvs "metadata" (.jobj []) with
        | jobj mkvs => exact ⟨_, rfl, rfl, Or.inr ⟨rfl, rkvs, rfl, hs, rfl⟩⟩
        | null => exact ⟨_, rfl, rfl, Or.inl ⟨rfl, _, rfl⟩⟩
        | jbool b => exact ⟨_, rfl, rfl, Or.inl ⟨rfl, _, rfl⟩⟩
        | jnum q => exact ⟨_, rfl, rfl, Or.inl ⟨rfl, _, rfl⟩⟩
        | jstr s => exact ⟨_, rfl, rfl, Or.inl ⟨rfl, _, rfl⟩⟩
        | jarr xs => exact ⟨_, rfl, rfl, Or.inl ⟨rfl, _, rfl⟩⟩
      · rw [if_neg hs]
        exact ⟨_, rfl, rfl, Or.inl ⟨rfl, _, rfl⟩⟩
    | null => exact ⟨_, rfl, rfl, Or.inl ⟨rfl, _, rfl⟩⟩
    | jbool b => exact ⟨_, rfl, rfl, Or.inl ⟨rfl, _, rfl⟩⟩
    | jnum q => exact ⟨_, rfl, rfl, Or.inl ⟨rfl, _, rfl⟩⟩
    | jstr s => exact ⟨_, rfl, rfl, Or.inl ⟨rfl, _, rfl⟩⟩
    | jarr xs => exact ⟨_, rfl, rfl, Or.inl ⟨rfl, _, rfl⟩⟩

/-- Shape of `renderWithId` for an arbitrary segment id. -/
theorem renderWithId_spec (api : ApiCall) (kvs : List (String × JVal)) (segment_id : JVal)
    (segment story_context : JVal) :
    ∃ rkvs, renderWithId api kvs segment_id segment story_context = .jobj rkvs ∧
      jLookup rkvs "duration" = some (.jnum 8) ∧
      ((jLookup rkvs "success" = some (.jbool false) ∧ ∃ e, jLookup rkvs "error" = some (.jstr e)) ∨
       (jLookup rkvs "success" = some (.jbool true) ∧
        ∃ prompt sp ep akvs, api prompt sp ep 8 = .ok (.jobj akvs) ∧
          truthy (jGetD akvs "success" .null) = true ∧
          jLookup rkvs "video_path" = some (jGetD akvs "video_path" .null))) := by
  unfold renderWithId
  split
  · exact ⟨_, rfl, rfl, Or.inl ⟨rfl, _, rfl⟩⟩
  · split
    · rename_i skvs _
      split
      · rename_i ekvs _
        split
        · exact ⟨_, rfl, rfl, Or.inl ⟨rfl, _, rfl⟩⟩
        · split
          · exact ⟨_, rfl, rfl, Or.inl ⟨rfl, _, rfl⟩⟩
          · rename_i prompt _
            obtain ⟨okvs, heq, hdur, hcase⟩ := renderCallResult_spec segment_id prompt
              (jGetD kvs "duration" (.jnum 8))
              (api prompt (jGetD skvs "image_path" .null) (jGetD ekvs "image_path" .null) 8)
            refine ⟨okvs, heq, hdur, ?_⟩
            rcases hcase with h | ⟨hsucc, rk, hres, htr, hvp⟩
            · exact Or.inl h
            · exact Or.inr ⟨hsucc, prompt, _, _, rk, hres, htr, hvp⟩
      · exact ⟨_, rfl, rfl, Or.inl ⟨rfl, _, rfl⟩⟩
    · exact ⟨_, rfl, rfl, Or.inl ⟨rfl, _, rfl⟩⟩

/-- Shape of `render_segment` over arbitrary input. -/
theorem render_segment_spec (api : ApiCall) (segment story_context : JVal) :
    ∃ rkvs, render_segment api segment story_context = .jobj rkvs ∧
      jLookup rkvs "duration" = some (.jnum 8) ∧
      ((jLookup rkvs "success" = some (.jbool false) ∧ ∃ e, jLookup rkvs "error" = some (.jstr e)) ∨
       (jLookup rkvs "success" = some (.jbool true) ∧
        ∃ prompt sp ep akvs, api prompt sp ep 8 = .ok (.jobj akvs) ∧
          truthy (jGetD akvs "success" .null) = true ∧
          jLookup rkvs "video_path" = some (jGetD akvs "video_path" .null))) := by
  unfold render_segment
  cases segment with
  | jobj kvs =>
    dsimp only
    split
    · exact ⟨_, rfl, rfl, Or.inl ⟨rfl, _, rfl⟩⟩
    · exact renderWithId_spec api kvs _ _ story_context
  | null => exact ⟨_, rfl, rfl, Or.inl ⟨rfl, _, rfl⟩⟩
  | jbool b => exact ⟨_, rfl, rfl, Or.inl ⟨rfl, _, rfl⟩⟩
  | jnum q => exact ⟨_, rfl, rfl, Or.inl ⟨rfl, _, rfl⟩⟩
  | jstr s => exact ⟨_, rfl, rfl, Or.inl ⟨rfl, _, rfl⟩⟩
  | jarr xs => exact ⟨_, rfl, rfl, Or.inl ⟨rfl, _, rfl⟩⟩

/-- Every result record of `render_segment` carries duration 8.0. -/
theorem render_segment_durationIs8 (api : ApiCall) (segment story_context : JVal) :
    durationIs8 (render_segment api segment story_context) = true := by
  obtain ⟨rkvs, heq, hdur, _⟩ := render_segment_spec api segment story_context
  rw [heq]
  simp [durationIs8, resField, hdur]

/-- Values accepted by `renderPlanSegment` are `render_segment` results. -/
theorem renderPlanSegment_ok (api : ApiCall) (ctx : JVal) (plan_kvs : List (String × JVal))
    (segment result : JVal) (h : renderPlanSegment api ctx plan_kvs segment = .ok result) :
    ∃ seg5, result = render_segment api seg5 ctx := by
  unfold renderPlanSegment at h
  simp only [bind, Except.bind, pure, Except.pure] at h
  repeat' split at h
  all_goals first
    | exact Except.noConfusion h
    | exact ⟨_, (Except.ok.inj h).symm⟩

/-- Every rendered result in a successful loop run carries duration 8.0. -/
theorem renderLoop_durations (api : ApiCall) (ctx : JVal) (plan_kvs : List (String × JVal)) :
    ∀ (segs : List JVal) (res : List JVal) (cnt : Nat) (failed : List JVal),
      renderLoop api ctx plan_kvs segs = .ok (res, cnt, failed) →
      res.all durationIs8 = true := by
  intro segs
  induction segs with
  | nil =>
    intro res cnt failed h
    simp only [renderLoop, Except.ok.injEq, Prod.mk.injEq] at h
    rw [← h.1]
    rfl
  | cons s rest ih =>
    intro res cnt failed h
    unfold renderLoop at h
    cases hps : renderPlanSegment api ctx plan_kvs s with
    | error e =>
      rw [hps] at h
      exact absurd h (by simp [bind, Except.bind])
    | ok result =>
      rw [hps] at h
      simp only [bind, Except.bind] at h
      cases hrl : renderLoop api ctx plan_kvs rest with
      | error e =>
        rw [hrl] at h
        exact absurd h (by simp)
      | ok trip =>
        obtain ⟨results, successful, failed'⟩ := trip
        rw [hrl] at h
        dsimp only at h
        obtain ⟨seg5, hseg5⟩ := renderPlanSegment_ok api ctx plan_kvs s result hps
        have hd8 : durationIs8 result = true := by
          rw [hseg5]; exact render_segment_durationIs8 api seg5 ctx
        have hall : results.all durationIs8 = true := ih results successful failed' hrl
        split at h <;>
          (simp only [Except.ok.injEq, Prod.mk.injEq] at h
           rw [← h.1]
           simp [List.all_cons, hd8, hall])

/-- Every rendered result in a successful batch-core run carries duration 8.0. -/
theorem renderBatchCore_durations (api : ApiCall) (ctx : JVal)
    (plan_kvs : List (String × JVal)) (segs : List JVal) :
    (renderedList (renderBatchCore api ctx plan_kvs segs)).all durationIs8 = true := by
  unfold renderBatchCore
  cases hrl : renderLoop api ctx plan_kvs segs with
  | error e => rfl
  | ok trip =>
    obtain ⟨rendered, successful, failed⟩ := trip
    have := renderLoop_durations api ctx plan_kvs segs rendered successful failed hrl
    simpa [renderedList, resField, jLookup] using this

/-- C1: every result record produced by `render_segment`, directly or for any
segment of a video plan processed by `render_segments_from_video_plan`, carries
`duration` exactly 8.0, in both the success and failure shapes, regardless of
the duration carried by the Phase 4 segment. -/
theorem rendered_duration_always_eight :
    (∀ (api : ApiCall) (segment story_context : JVal),
      durationIs8 (render_segment api segment story_context) = true) ∧
    (∀ (api : ApiCall) (video_plan story_context : JVal),
      (renderedList (render_segments_from_video_plan api video_plan story_context)).all
        durationIs8 = true) := by
  refine ⟨render_segment_durationIs8, ?_⟩
  intro api video_plan story_context
  unfold render_segments_from_video_plan
  cases video_plan with
  | jobj plan_kvs =>
    dsimp only
    split
    · rfl
    · split
      · rfl
      · split
        · rename_i segs _
          cases hctx : ctxFromPlan plan_kvs story_context with
          | error e => rfl
          | ok ctx => exact renderBatchCore_durations api ctx plan_kvs segs
        · rfl
  | null => rfl
  | jbool b => rfl
  | jnum q => rfl
  | jstr s => rfl
  | jarr xs => rfl

/-- C10: `render_segment` is total over arbitrary input: for every value
(non-dict, missing id, malformed keyframes, a prompt-building exception, an
api exception) it returns a result record, with `success` false and an error
string in every failure case, and `success` true with a video path in the
success case. -/
theorem render_segment_total (api : ApiCall)
    (hapi : ∀ (p : String) (sp ep : JVal) (d : ℚ) (akvs : List (String × JVal)),
      api p sp ep d = .ok (.jobj akvs) →
      truthy (jGetD akvs "success" .null) = true →
      ∃ path, jGetD akvs "video_path" .null = .jstr path) :
    ∀ segment story_context : JVal,
      ∃ rkvs, render_segment api segment story_context = .jobj rkvs ∧
        ((jLookup rkvs "success" = some (.jbool true) ∧
          ∃ path, jLookup rkvs "video_path" = some (.jstr path)) ∨
         (jLookup rkvs "success" = some (.jbool false) ∧
          ∃ e, jLookup rkvs "error" = some (.jstr e))) := by
  intro segment story_context
  obtain ⟨rkvs, heq, _, hcase⟩ := render_segment_spec api segment story_context
  refine ⟨rkvs, heq, ?_⟩
  rcases hcase with ⟨hs, e, he⟩ | ⟨hs, prompt, sp, ep, akvs, hres, htr, hvp⟩
  · exact Or.inr ⟨hs, e, he⟩
  · obtain ⟨path, hpath⟩ := hapi prompt sp ep 8 akvs hres htr
    exact Or.inl ⟨hs, path, by rw [hvp, hpath]⟩

/-- The mock video-generation api always returns a string video path on success. -/
theorem mockApi_video_path (ts uid : String) (hashFn : String → Int) :
    ∀ (p : String) (sp ep : JVal) (d : ℚ) (akvs : List (String × JVal)),
      mockApi ts uid hashFn p sp ep d = .ok (.jobj akvs) →
      truthy (jGetD akvs "success" .null) = true →
      ∃ path, jGetD akvs "video_path" .null = .jstr path := by
  intro p sp ep d akvs h _
  simp only [mockApi, mock_google_video_generation, Except.ok.injEq] at h
  injection h with h1
  rw [← h1]
  exact ⟨_, rfl⟩

/-- Witness for the totality theorem at a concrete malformed input. -/
theorem render_segment_total_witness :
    ∃ rkvs, render_segment (mockApi "T" "U" (fun _ => 0)) (.jnum 3) .null = .jobj rkvs ∧
      ((jLookup rkvs "success" = some (.jbool true) ∧
        ∃ path, jLookup rkvs "video_path" = some (.jstr path)) ∨
       (jLookup rkvs "success" = some (.jbool false) ∧
        ∃ e, jLookup rkvs "error" = some (.jstr e))) :=
  render_segment_total (mockApi "T" "U" (fun _ => 0))
    (mockApi_video_path "T" "U" (fun _ => 0)) (.jnum 3) .null

/-- Constant hash oracle used in concrete evaluations. -/
def hzero : String → Int := fun _ => 0

/-- Concrete start keyframe of the fixture Phase 4 segment. -/
def kfA : JVal :=
  .jobj [ ("id", .jstr "a"), ("image_path", .jstr "p1"),
          ("description", .jstr "da"), ("timing", .jnum 0) ]

/-- Concrete end keyframe of the fixture Phase 4 segment. -/
def kfB : JVal :=
  .jobj [ ("id", .jstr "b"), ("image_path", .jstr "p2"),
          ("description", .jstr "db"), ("timing", .jnum 2) ]

/-- A Phase 4 segment whose computed duration is 2.0 seconds (not 8.0). -/
def phase4SegFix : JVal :=
  .jobj [ ("id", .jnum 1), ("scene_id", .jnum 1), ("duration", .jnum 2),
          ("start_time", .jnum 0), ("end_time", .jnum 2),
          ("description", .jstr "d"), ("purpose", .jstr "hook"), ("emotion", .jstr "joy"),
          ("start_keyframe", kfA), ("end_keyframe", kfB) ]

/-- A Phase 4 video plan containing the 2.0-second fixture segment. -/
def videoPlanFix : JVal :=
  .jobj [ ("storyboard_metadata", .jobj
            [ ("story", .jobj [ ("goal", .jstr "g"), ("product", .jstr "P"),
                                ("audience", .jstr "A"), ("platform", .jstr "F") ]),
              ("selected_character", .null), ("selected_location", .null) ]),
          ("segments", .jarr [phase4SegFix]),
          ("total_duration", .jnum 2), ("segment_count", .jnum 1) ]

/-- Success flag of the first rendered segment of a batch result. -/
def firstRenderedSuccess (x : Except String JVal) : Option JVal :=
  (firstRendered x).bind fun r => resField r "success"

/-- metadata.original_duration of the first rendered segment of a batch result. -/
def firstRenderedOrigDur (x : Except String JVal) : Option JVal :=
  (firstRendered x).bind fun r => (resField r "metadata").bind fun m =>
    resField m "original_duration"

/-- C2: the originating Phase 4 segment carries duration 2.0, the batch render
succeeds, and yet the rendered record's metadata.original_duration is 8.0:
`render_segment` reads `segment.get("duration", 8.0)` from the Phase 5 segment
schema, whose duration was already fixed to 8.0, so the documented
"original Phase 4 duration" is lost. -/
theorem original_duration_overwritten_to_eight :
    resField phase4SegFix "duration" = some (.jnum 2) ∧
    firstRenderedSuccess
      (render_segments_from_video_plan (mockApi "T" "U" hzero) videoPlanFix .null)
      = some (.jbool true) ∧
    firstRenderedOrigDur
      (render_segments_from_video_plan (mockApi "T" "U" hzero) videoPlanFix .null)
      = some (.jnum 8) ∧
    JVal.jnum 2 ≠ JVal.jnum 8 := by
  refine ⟨rfl, rfl, rfl, ?_⟩
  intro h
  injection h with h1
  norm_num at h1

/-- Validated id of an annotated keyframe. -/
def annId (a : AnnKf) : String := (kfFields a.kf).1

/-- Validated image path of an annotated keyframe. -/
def annPath (a : AnnKf) : String := (kfFields a.kf).2.1

/-- Validated description of an annotated keyframe. -/
def annDesc (a : AnnKf) : String := (kfFields a.kf).2.2.1

/-- Timing of an annotated keyframe (default 0). -/
def annTiming (a : AnnKf) : ℚ := (kfFields a.kf).2.2.2

/-- Keyframe object stored in a segment for an annotated keyframe. -/
def annKfOut (a : AnnKf) : KfOut :=
  { id := annId a, image_path := annPath a, description := annDesc a,
    timing := round2 (annTiming a) }

theorem checkKf_ok (p : String) (i : Nat) (k : KfIn)
    (v : String × String × String × ℚ) (h : checkKf p i k = .ok v) : v = kfFields k := by
  unfold checkKf at h
  repeat' split at h
  all_goals first
    | exact Except.noConfusion h
    | exact (Except.ok.inj h).symm

theorem one_le_floor1 (q : ℚ) : 1 ≤ floor1 q := by
  unfold floor1
  split <;> linarith

theorem one_le_round2_floor1 (q : ℚ) : 1 ≤ round2 (floor1 q) :=
  one_le_round2 _ (one_le_floor1 q)

/-- Structure of the segments built by the Phase 4 loop: one segment per
flattened keyframe; every non-final segment pairs keyframe i with the next
flattened keyframe i+1 (even across a scene boundary) and carries the
floored-and-rounded raw duration; the final segment is self-referential with
its end timing set to the end of its scene; every duration is at least 1. -/
theorem buildSegments_spec :
    ∀ (flat : List AnnKf) (t : ℚ) (n idx : Nat) (segs : List SegOut),
      buildSegments flat t n idx = .ok segs →
      segs.length = flat.length ∧
      (∀ i (hi1 : i + 1 < flat.length) (hs : i < segs.length) (hi : i < flat.length),
        (segs.get ⟨i, hs⟩).start_keyframe = annKfOut (flat.get ⟨i, hi⟩) ∧
        (segs.get ⟨i, hs⟩).end_keyframe = annKfOut (flat.get ⟨i + 1, hi1⟩) ∧
        (segs.get ⟨i, hs⟩).duration =
          round2 (floor1 (rawDuration (flat.get ⟨i, hi⟩) (flat.get ⟨i + 1, hi1⟩)))) ∧
      (∀ (hne : flat ≠ []) (hse : segs ≠ []),
        (segs.getLast hse).start_keyframe = annKfOut (flat.getLast hne) ∧
        (segs.getLast hse).end_keyframe =
          { annKfOut (flat.getLast hne) with
              timing := round2 (annTiming (flat.getLast hne)
                + (flat.getLast hne).scene_duration - annTiming (flat.getLast hne)) } ∧
        (segs.getLast hse).duration =
          round2 (floor1 ((flat.getLast hne).scene_duration - annTiming (flat.getLast hne)))) ∧
      (∀ s ∈ segs, 1 ≤ s.duration) := by
  intro flat
  induction flat with
  | nil =>
    intro t n idx segs h
    obtain rfl : segs = [] := (Except.ok.inj h).symm
    refine ⟨rfl, ?_, ?_, ?_⟩
    · intro i hi1
      simp at hi1
    · intro hne
      exact absurd rfl hne
    · intro s hs
      simp at hs
  | cons a rest ih =>
    intro t n idx segs h
    unfold buildSegments at h
    cases hca : checkKf "Keyframe at index " idx a.kf with
    | error e =>
      rw [hca] at h
      exact Except.noConfusion h
    | ok va =>
      obtain ⟨aid, apath, adesc, atiming⟩ := va
      have hva := checkKf_ok _ _ _ _ hca
      have haid : annId a = aid := by simp [annId, ← hva]
      have hapath : annPath a = apath := by simp [annPath, ← hva]
      have hadesc : annDesc a = adesc := by simp [annDesc, ← hva]
      have hatim : annTiming a = atiming := by simp [annTiming, ← hva]
      rw [hca] at h
      cases rest with
      | nil =>
        dsimp only at h
        obtain rfl : segs = _ := (Except.ok.inj h).symm
        refine ⟨rfl, ?_, ?_, ?_⟩
        · intro i hi1
          simp at hi1
        · intro hne hse
          simp only [List.getLast_singleton]
          refine ⟨?_, ?_, ?_⟩
          · simp [annKfOut, haid, hapath, hadesc, hatim]
          · simp [annKfOut, haid, hapath, hadesc, hatim]
          · simp [floor1, hatim]
        · intro s hs
          simp only [List.mem_singleton] at hs
          subst hs
          exact one_le_round2_floor1 _
      | cons b rest' =>
        dsimp only at h
        cases hcb : checkKf "End keyframe at index " (idx + 1) b.kf with
        | error e =>
          rw [hcb] at h
          exact Except.noConfusion h
        | ok vb =>
          obtain ⟨bid, bpath, bdesc, btiming⟩ := vb
          have hvb := checkKf_ok _ _ _ _ hcb
          have hbid : annId b = bid := by simp [annId, ← hvb]
          have hbpath : annPath b = bpath := by simp [annPath, ← hvb]
          have hbdesc : annDesc b = bdesc := by simp [annDesc, ← hvb]
          have hbtim : annTiming b = btiming := by simp [annTiming, ← hvb]
          rw [hcb] at h
          dsimp only at h
          split at h
          · exact Except.noConfusion h
          · rename_i segs' heq
            obtain rfl : segs = _ := (Except.ok.inj h).symm
            obtain ⟨ihlen, ihmid, ihlast, ihdur⟩ :=
              ih (t + (if (if b.scene_id ≠ a.scene_id then a.scene_duration - atiming
                        else btiming - atiming) < 1 then 1
                       else if b.scene_id ≠ a.scene_id then a.scene_duration - atiming
                       else btiming - atiming)) (n + 1) (idx + 1) segs' heq
            refine ⟨by simp [ihlen], ?_, ?_, ?_⟩
            · intro i hi1 hs hi
              cases i with
              | zero =>
                refine ⟨?_, ?_, ?_⟩
                · simp [annKfOut, haid, hapath, hadesc, hatim]
                · simp [annKfOut, hbid, hbpath, hbdesc, hbtim]
                · simp [rawDuration, floor1, ← hva, ← hvb]
              | succ j =>
                have hj1 : j + 1 < (b :: rest').length := by
                  simpa using hi1
                have hjs : j < segs'.length := by
                  simp at hs
                  omega
                have hj : j < (b :: rest').length := by omega
                have := ihmid j hj1 hjs hj
                simpa using this
            · intro hne hse
              have hse' : segs' ≠ [] := by
                intro hnil
                rw [hnil] at ihlen
                simp at ihlen
              have hbne : (b :: rest') ≠ [] := by simp
              rw [List.getLast_cons hse', List.getLast_cons hbne]
              exact ihlast hbne hse'
            · intro s hs
              rcases List.mem_cons.mp hs with rfl | hs'
              · exact one_le_round2_floor1 _
              · exact ihdur s hs'

/-- An accepted storyboard has non-empty scenes and its segments come from the
construction loop over the flattened keyframes. -/
theorem map_ok_buildSegments (storyboard : StoryboardIn) (segs : List SegOut)
    (h : map_storyboard_to_segments storyboard = .ok segs) :
    ∃ scenes, storyboard.scenes? = some scenes ∧
      buildSegments (flattenScenes scenes) 0 1 0 = .ok segs := by
  unfold map_storyboard_to_segments at h
  cases hsc : storyboard.scenes? with
  | none =>
    rw [hsc] at h
    exact Except.noConfusion h
  | some scenes =>
    rw [hsc] at h
    dsimp only at h
    split at h
    · exact Except.noConfusion h
    · exact ⟨scenes, rfl, h⟩

/-- C4 (amended): for every storyboard accepted by `map_storyboard_to_segments`
there is one segment per flattened keyframe; each non-final segment's
end_keyframe is the next flattened keyframe (even across a scene boundary, its
timing rounded to 2 decimals) and its duration is the raw duration (timing
difference within a scene, else the scene remainder) floored at 1.0 second and
rounded to 2 decimals; the final segment reuses its own keyframe's id,
image_path and description as end_keyframe, with the end timing set to the end
of its scene. -/
theorem map_storyboard_to_segments_spec (storyboard : StoryboardIn) (segs : List SegOut)
    (h : map_storyboard_to_segments storyboard = .ok segs) :
    segs.length = (flattenScenes (storyboard.scenes?.getD [])).length ∧
    (∀ i (hi1 : i + 1 < (flattenScenes (storyboard.scenes?.getD [])).length)
        (hs : i < segs.length)
        (hi : i < (flattenScenes (storyboard.scenes?.getD [])).length),
      (segs.get ⟨i, hs⟩).start_keyframe =
        annKfOut ((flattenScenes (storyboard.scenes?.getD [])).get ⟨i, hi⟩) ∧
      (segs.get ⟨i, hs⟩).end_keyframe =
        annKfOut ((flattenScenes (storyboard.scenes?.getD [])).get ⟨i + 1, hi1⟩) ∧
      (segs.get ⟨i, hs⟩).duration =
        round2 (floor1 (rawDuration ((flattenScenes (storyboard.scenes?.getD [])).get ⟨i, hi⟩)
          ((flattenScenes (storyboard.scenes?.getD [])).get ⟨i + 1, hi1⟩)))) ∧
    (∀ (hne : flattenScenes (storyboard.scenes?.getD []) ≠ []) (hse : segs ≠ []),
      (segs.getLast hse).start_keyframe =
        annKfOut ((flattenScenes (storyboard.scenes?.getD [])).getLast hne) ∧
      (segs.getLast hse).end_keyframe =
        { annKfOut ((flattenScenes (storyboard.scenes?.getD [])).getLast hne) with
            timing := round2 (annTiming ((flattenScenes (storyboard.scenes?.getD [])).getLast hne)
              + ((flattenScenes (storyboard.scenes?.getD [])).getLast hne).scene_duration
              - annTiming ((flattenScenes (storyboard.scenes?.getD [])).getLast hne)) } ∧
      (segs.getLast hse).duration =
        round2 (floor1 (((flattenScenes (storyboard.scenes?.getD [])).getLast hne).scene_duration
          - annTiming ((flattenScenes (storyboard.scenes?.getD [])).getLast hne)))) ∧
    (∀ s ∈ segs, 1 ≤ s.duration) := by
  obtain ⟨scenes, hsc, hbs⟩ := map_ok_buildSegments storyboard segs h
  rw [hsc]
  simp only [Option.getD_some]
  exact buildSegments_spec (flattenScenes scenes) 0 1 0 segs hbs

/-- First fixture keyframe with a timing that is not a 2-decimal value. -/
def kfC1 : KfIn :=
  { id? := some "a", image_path? := some "p1", description? := some "d1", timing? := some (1/3) }

/-- Second fixture keyframe. -/
def kfC2 : KfIn :=
  { id? := some "b", image_path? := some "p2", description? := some "d2", timing? := some 2 }

/-- Fixture scene of duration 4 holding the two keyframes. -/
def sceneC4 : SBSceneIn :=
  { scene_id? := some 1, purpose? := some "hook", emotion? := some "joy",
    duration? := some 4, description? := some "d", keyframes? := some [kfC1, kfC2] }

/-- Fixture storyboard for the Phase 4 mapper. -/
def sbC4 : StoryboardIn :=
  { story? := none, selected_character? := none, selected_location? := none,
    scenes? := some [sceneC4] }

unseal Rat.add Rat.sub Rat.mul Rat.inv in
/-- C4 counterexample: on the fixture storyboard, the first segment's stored
duration is 1.67, not the timing difference 2 - 1/3 = 5/3, and the final
segment's end_keyframe differs from its start_keyframe (in the timing field)
while referring to the same keyframe id. -/
theorem map_storyboard_exact_duration_counterexample :
    ((map_storyboard_to_segments sbC4).toOption.getD []).map SegOut.duration = [167/100, 2] ∧
    ¬ ((167 : ℚ)/100 = 2 - 1/3) ∧
    (∃ s2, ((map_storyboard_to_segments sbC4).toOption.getD []).getLast? = some s2 ∧
      s2.end_keyframe ≠ s2.start_keyframe ∧ s2.end_keyframe.id = s2.start_keyframe.id) := by
  refine ⟨by decide, by norm_num, ?_⟩
  exact ⟨_, rfl, by decide, by decide⟩

/-- Witness: the fixture storyboard is accepted and the amended theorem applies. -/
theorem map_storyboard_to_segments_spec_witness :
    map_storyboard_to_segments sbC4 = .ok ((map_storyboard_to_segments sbC4).toOption.getD []) ∧
    ((map_storyboard_to_segments sbC4).toOption.getD []).length
      = (flattenScenes (sbC4.scenes?.getD [])).length :=
  ⟨rfl, (map_storyboard_to_segments_spec sbC4 _ rfl).1⟩

/-- C5: for every storyboard accepted by `generate_video_plan`, the plan
satisfies segment_count = len(segments), total_duration = round2 of the last
segment's end_time (when any segment exists), and every duration is at least
1.0 second. -/
theorem generate_video_plan_invariants (storyboard : StoryboardIn) (plan : VideoPlan)
    (h : generate_video_plan storyboard = .ok plan) :
    plan.segment_count = plan.segments.length ∧
    (∀ hne : plan.segments ≠ [],
      plan.total_duration = round2 ((plan.segments.getLast hne).end_time)) ∧
    (∀ s ∈ plan.segments, 1 ≤ s.duration) := by
  unfold generate_video_plan at h
  simp only [bind, Except.bind] at h
  cases hms : map_storyboard_to_segments storyboard with
  | error e =>
    rw [hms] at h
    exact Except.noConfusion h
  | ok segs =>
    rw [hms] at h
    dsimp only at h
    obtain rfl := (Except.ok.inj h).symm
    obtain ⟨scenes, hsc, hbs⟩ := map_ok_buildSegments storyboard segs hms
    have hdur := (buildSegments_spec (flattenScenes scenes) 0 1 0 segs hbs).2.2.2
    refine ⟨rfl, ?_, hdur⟩
    intro hne
    simp only
    rw [List.getLast?_eq_getLast segs hne]

/-- Default plan record used to name the fixture evaluation result. -/
def vpDefault : VideoPlan :=
  { storyboard_metadata :=
      { story := { goal? := none, product? := none, audience? := none, platform? := none },
        selected_character := none, selected_location := none },
    segments := [], total_duration := 0, segment_count := 0 }

/-- Witness: `generate_video_plan` accepts the fixture storyboard and the plan
invariants hold on the resulting plan. -/
theorem generate_video_plan_invariants_witness :
    generate_video_plan sbC4 = .ok ((generate_video_plan sbC4).toOption.getD vpDefault) ∧
    ((generate_video_plan sbC4).toOption.getD vpDefault).segment_count
      = ((generate_video_plan sbC4).toOption.getD vpDefault).segments.length :=
  ⟨rfl, (generate_video_plan_invariants sbC4 _ rfl).1⟩

/-- Witness: the assembly invariants hold at a concrete two-path call with one
missing segment and no caller-supplied output path. -/
theorem assemble_video_invariants_witness :
    ([some "a", none] : List (Option String)) ≠ [] ∧
    ∃ r, assemble_video [some "a", none] none true 3 "T" "U" = .ok r ∧
      r.successful_segments + r.failed_segments.length = r.total_segments ∧
      (r.success = true ↔ r.failed_segments = []) ∧
      (r.success = true → r.output_path ≠ "") :=
  ⟨List.cons_ne_nil _ _,
    assemble_video_invariants [some "a", none] none true 3 "T" "U"
      (List.cons_ne_nil _ _) (Or.inl rfl)⟩

/-! ## C7: keyframe bucket policy, timing, and global id uniqueness -/

theorem keyframeId_inj (s1 s2 : Option Int) (m n : Nat)
    (h : keyframeId s1 m = keyframeId s2 n) : s1 = s2 ∧ m = n := by
  have hd := congrArg String.data h
  simp only [keyframeId, string_data_append, List.append_assoc] at hd
  have h1 := List.append_cancel_left hd
  have h2 : (optIntStr s1).data ++ ('_' :: ('k' :: 'f' :: '_' :: (natDec m).data))
      = (optIntStr s2).data ++ ('_' :: ('k' :: 'f' :: '_' :: (natDec n).data)) := h1
  obtain ⟨hA, hB⟩ :=
    sep_split (optIntChars_no_underscore s1) (optIntChars_no_underscore s2) h2
  refine ⟨optIntChars_inj s1 s2 hA, ?_⟩
  injection hB with _ hB
  injection hB with _ hB
  injection hB with _ hB
  exact natDecChars_inj m n hB

theorem map_scene_to_keyframes_ids (scene : SceneIn) (sc sl : Option CharLoc) :
    (map_scene_to_keyframes scene sc sl).map Keyframe.id =
      (List.range (numKeyframes (scene.duration?.getD 0))).map
        (fun i => keyframeId scene.id? (i + 1)) := by
  unfold map_scene_to_keyframes
  rw [List.map_map]
  rfl

theorem map_scene_to_keyframes_ids_nodup (scene : SceneIn) (sc sl : Option CharLoc) :
    ((map_scene_to_keyframes scene sc sl).map Keyframe.id).Nodup := by
  rw [map_scene_to_keyframes_ids]
  refine List.Nodup.map ?_ (List.nodup_range _)
  intro a b hab
  have := (keyframeId_inj _ _ _ _ hab).2
  omega

theorem map_scene_to_keyframes_policy (scene : SceneIn) (sc sl : Option CharLoc) :
    (map_scene_to_keyframes scene sc sl).length =
      (if scene.duration?.getD 0 ≤ 3 then 1
       else if scene.duration?.getD 0 ≤ 5 then 2 else 3) ∧
    ∀ i (hi : i < (map_scene_to_keyframes scene sc sl).length),
      ((map_scene_to_keyframes scene sc sl).get ⟨i, hi⟩).id = keyframeId scene.id? (i + 1) ∧
      ((map_scene_to_keyframes scene sc sl).get ⟨i, hi⟩).timing =
        round2 (if numKeyframes (scene.duration?.getD 0) = 1
          then scene.duration?.getD 0 / 2
          else scene.duration?.getD 0 / ((numKeyframes (scene.duration?.getD 0) : ℚ) + 1)
            * ((i : ℚ) + 1)) := by
  constructor
  · simp [map_scene_to_keyframes, numKeyframes]
  · intro i hi
    unfold map_scene_to_keyframes at hi ⊢
    simp only [List.length_map, List.length_range] at hi
    simp only [List.get_eq_getElem, List.getElem_map, List.getElem_range]
    exact ⟨trivial, trivial⟩

theorem build_storyboard_scenes (story : StoryIn) (sc sl : Option CharLoc)
    (sb : Storyboard) (h : build_storyboard story sc sl = .ok sb) :
    sb.scenes = (story.scenes?.getD []).map fun scene =>
      { scene_id? := scene.id?, purpose? := scene.purpose?,
        emotion? := scene.emotion?, duration? := scene.duration?,
        description? := scene.description?,
        keyframes := map_scene_to_keyframes scene sc sl } := by
  unfold build_storyboard at h
  cases hl : story.scenes?.getD [] with
  | nil =>
    rw [hl] at h
    repeat' split at h
    all_goals exact Except.noConfusion h
  | cons s rest =>
    rw [hl] at h
    repeat' split at h
    all_goals try exact Except.noConfusion h
    obtain rfl := (Except.ok.inj h).symm
    rfl

/-- C7 (amended): the keyframe count per scene follows the duration buckets
(1 if duration ≤ 3, 2 if ≤ 5, else 3); the i-th keyframe (0-based) has id
`scene_<scene_id>_kf_<i+1>` and its stored timing is the evenly spaced value —
the scene midpoint for a single keyframe, else duration/(n+1)·(i+1) — rounded
to 2 decimal places (not the exact value); and in a storyboard built from a
story whose scene ids are pairwise distinct, keyframe ids are globally unique. -/
theorem keyframe_policy_and_unique_ids (story : StoryIn)
    (selected_character selected_location : Option CharLoc) :
    (∀ scene : SceneIn,
      (map_scene_to_keyframes scene selected_character selected_location).length =
        (if scene.duration?.getD 0 ≤ 3 then 1
         else if scene.duration?.getD 0 ≤ 5 then 2 else 3) ∧
      ∀ i (hi : i < (map_scene_to_keyframes scene selected_character selected_location).length),
        ((map_scene_to_keyframes scene selected_character selected_location).get ⟨i, hi⟩).id =
          keyframeId scene.id? (i + 1) ∧
        ((map_scene_to_keyframes scene selected_character selected_location).get ⟨i, hi⟩).timing =
          round2 (if numKeyframes (scene.duration?.getD 0) = 1
            then scene.duration?.getD 0 / 2
            else scene.duration?.getD 0 / ((numKeyframes (scene.duration?.getD 0) : ℚ) + 1)
              * ((i : ℚ) + 1))) ∧
    ∀ sb, build_storyboard story selected_character selected_location = .ok sb →
      ((story.scenes?.getD []).Pairwise fun a b => a.id? ≠ b.id?) →
      (storyboardKeyframeIds sb).Nodup := by
  refine ⟨fun scene => map_scene_to_keyframes_policy scene _ _, ?_⟩
  intro sb h hids
  have hsc := build_storyboard_scenes story selected_character selected_location sb h
  unfold storyboardKeyframeIds
  rw [hsc]
  simp only [List.flatMap_map]
  rw [List.nodup_flatMap]
  constructor
  · intro scene _
    exact map_scene_to_keyframes_ids_nodup scene selected_character selected_location
  · refine hids.imp ?_
    intro a b hne
    simp only [Function.onFun]
    intro x hxa hxb
    rw [map_scene_to_keyframes_ids] at hxa hxb
    obtain ⟨i, _, rfl⟩ := List.mem_map.1 hxa
    obtain ⟨j, _, hj⟩ := List.mem_map.1 hxb
    exact hne (keyframeId_inj _ _ _ _ hj.symm).1

/-- Fixture scene of duration 5 for the keyframe timing counterexample. -/
def sceneC7 : SceneIn :=
  { id? := some 2, purpose? := some "hook", emotion? := some "joy",
    duration? := some 5, description? := some "d" }

unseal Rat.add Rat.sub Rat.mul Rat.inv in
/-- C7 counterexample: the duration-5 fixture scene gets two keyframes whose
stored timings are 1.67 and 3.33; the first differs from the exact evenly
spaced value 5/3 = (duration/(n+1))*(i+1) the claim states, because the source
stores `round(timing, 2)`. -/
theorem keyframe_timing_rounded_counterexample :
    (map_scene_to_keyframes sceneC7 none none).map Keyframe.timing = [167/100, 333/100] ∧
    ¬ ((167 : ℚ)/100 = 5 / ((2 : ℚ) + 1) * (0 + 1)) :=
  ⟨by decide, by norm_num⟩

/-- Fixture story with two scenes carrying distinct ids. -/
def storyC7 : StoryIn :=
  { goal? := some "g", product? := some "p", audience? := some "a",
    platform? := some "f",
    scenes? := some [ { id? := some 1, purpose? := some "hook", emotion? := some "e",
                        duration? := some 3, description? := some "d" },
                      sceneC7 ] }

/-- Default storyboard record used to name fixture evaluation results. -/
def sbDefault : Storyboard :=
  { story := { goal? := none, product? := none, audience? := none, platform? := none },
    selected_character := none, selected_location := none, scenes := [] }

/-- Witness: the two-scene fixture story is accepted, its scene ids are
pairwise distinct, and the policy theorem yields globally unique keyframe ids. -/
theorem keyframe_policy_witness :
    build_storyboard storyC7 none none =
      .ok ((build_storyboard storyC7 none none).toOption.getD sbDefault) ∧
    ((storyC7.scenes?.getD []).Pairwise fun a b => a.id? ≠ b.id?) ∧
    (storyboardKeyframeIds
      ((build_storyboard storyC7 none none).toOption.getD sbDefault)).Nodup :=
  ⟨rfl, by decide,
    (keyframe_policy_and_unique_ids storyC7 none none).2 _ rfl (by decide)⟩

/-! ## C8: error behaviour of the storyboard builder -/

theorem build_storyboard_selection (story : StoryIn) (sc sl : Option CharLoc)
    (sb : Storyboard) (h : build_storyboard story sc sl = .ok sb) :
    sb.selected_character = sc ∧ sb.selected_location = sl := by
  unfold build_storyboard at h
  repeat' split at h
  all_goals first
    | exact Except.noConfusion h
    | (obtain rfl := (Except.ok.inj h).symm; exact ⟨rfl, rfl⟩)

/-- C8 (amended): the builder raises when the story is absent, and when the
story lacks its goal field, lacks its scenes field, or has an empty scene
list; but an unmatched selected character or location id does NOT raise — the
builder succeeds with the corresponding selection left empty. -/
theorem build_storyboard_from_phase2_amended (p : Phase2Output) (cid lid : Option Int) :
    (p.story? = none → build_storyboard_from_phase2 p cid lid =
        .error "phase2_output must contain story field") ∧
    (∀ story, p.story? = some story →
      (story.goal? = none ∨ story.scenes? = none ∨ story.scenes? = some []) →
      ∃ e, build_storyboard_from_phase2 p cid lid = .error e) ∧
    (∀ c, cid = some c →
      (p.characters?.getD []).find? (fun ch => ch.id? == some c) = none →
      ∀ sb, build_storyboard_from_phase2 p cid lid = .ok sb →
        sb.selected_character = none) ∧
    (∀ l, lid = some l →
      (p.locations?.getD []).find? (fun loc => loc.id? == some l) = none →
      ∀ sb, build_storyboard_from_phase2 p cid lid = .ok sb →
        sb.selected_location = none) := by
  refine ⟨?_, ?_, ?_, ?_⟩
  · intro hst
    simp [build_storyboard_from_phase2, hst]
  · intro story hst hbad
    simp only [build_storyboard_from_phase2, hst]
    rcases hbad with hg | hs | hs
    · unfold build_storyboard
      simp only [hg, Option.isNone_none, if_true]
      exact ⟨_, rfl⟩
    · unfold build_storyboard
      simp only [hs, Option.isNone_none, if_true]
      repeat' split
      all_goals exact ⟨_, rfl⟩
    · unfold build_storyboard
      simp only [hs, Option.isNone_some, Bool.false_eq_true, if_false, Option.getD_some]
      repeat' split
      all_goals exact ⟨_, rfl⟩
  · intro c hcid hfind sb h
    cases hst : p.story? with
    | none =>
      rw [build_storyboard_from_phase2, hst] at h
      exact Except.noConfusion h
    | some story =>
      simp only [build_storyboard_from_phase2, hst, hcid, hfind] at h
      exact (build_storyboard_selection _ _ _ _ h).1
  · intro l hlid hfind sb h
    cases hst : p.story? with
    | none =>
      rw [build_storyboard_from_phase2, hst] at h
      exact Except.noConfusion h
    | some story =>
      simp only [build_storyboard_from_phase2, hst, hlid, hfind] at h
      exact (build_storyboard_selection _ _ _ _ h).2

/-- Fixture story for the Phase 2 builder. -/
def storyW : StoryIn :=
  { goal? := some "g", product? := some "p", audience? := some "a",
    platform? := some "f",
    scenes? := some [ { id? := some 1, purpose? := some "hook", emotion? := some "e",
                        duration? := some 3, description? := some "d" } ] }

/-- Fixture Phase 2 output: one character with id 1, no locations. -/
def p2W : Phase2Output :=
  { story? := some storyW,
    characters? := some [{ id? := some 1, name? := some "n", style? := some "s" }],
    locations? := some [], selection? := none }

/-- C8 counterexample: a selected character id (99) matching no candidate does
not raise — the builder returns a storyboard whose selected_character is None,
refuting the claim that an unmatched referenced id raises. -/
theorem unmatched_selected_id_counterexample :
    (p2W.characters?.getD []).find? (fun ch => ch.id? == some 99) = none ∧
    ∃ sb, build_storyboard_from_phase2 p2W (some 99) none = .ok sb ∧
      sb.selected_character = none :=
  ⟨rfl, _, rfl, rfl⟩

/-- Witness: the amended theorem applies at the concrete fixture with the
unmatched id 99, giving success with an empty selection. -/
theorem build_storyboard_from_phase2_amended_witness :
    p2W.story? = some storyW ∧
    (p2W.characters?.getD []).find? (fun ch => ch.id? == some 99) = none ∧
    build_storyboard_from_phase2 p2W (some 99) none =
      .ok ((build_storyboard_from_phase2 p2W (some 99) none).toOption.getD sbDefault) ∧
    ((build_storyboard_from_phase2 p2W (some 99) none).toOption.getD
        sbDefault).selected_character = none :=
  ⟨rfl, rfl, rfl,
    (build_storyboard_from_phase2_amended p2W (some 99) none).2.2.1 99 rfl rfl _ rfl⟩
